import Mathlib

/-!
Verification of the EML phishing analyzer against its specification.

Shallow embedding of the Python sources: dictionaries become structures whose
optional fields model possibly-absent keys (`none` = key absent), CPython
floats become an explicit value type with NaN and signed infinities over `ℚ`,
and calls that can raise become `Except` computations.  External library
calls (tldextract, urlparse, sklearn transforms, numpy log1p) are taken as
explicit function parameters of the embedded definitions.
-/

/-- ASCII lowercase, modelling Python `str.lower()` on the ASCII strings used here. -/
def pyLower (s : String) : String := ⟨s.data.map Char.toLower⟩

/-- Does the first list occur as a prefix of the second? -/
def listIsPre : List Char → List Char → Bool
  | [], _ => true
  | _ :: _, [] => false
  | a :: as, b :: bs => a = b && listIsPre as bs

/-- Occurrence of `needle` as a contiguous sublist. -/
def listHasSub (needle : List Char) : List Char → Bool
  | [] => needle.isEmpty
  | h :: t => listIsPre needle (h :: t) || listHasSub needle t

/-- Python `needle in hay` on strings. -/
def strContains (hay needle : String) : Bool := listHasSub needle.data hay.data

/-- Python `str.endswith(suffix)`. -/
def strEndsWith (s suffix : String) : Bool :=
  s.data.reverse.take suffix.data.length == suffix.data.reverse

/-- Python `str.startswith(pre)`. -/
def strStartsWith (s pre : String) : Bool :=
  s.data.take pre.data.length == pre.data

/-- Split a character list at every occurrence of `c` (Python `str.split(c)`). -/
def splitOnChar (c : Char) : List Char → List (List Char)
  | [] => [[]]
  | x :: xs =>
    let r := splitOnChar c xs
    if x = c then [] :: r
    else
      match r with
      | [] => [[x]]
      | h :: t => (x :: h) :: t

/-- Python `ip.split('.')`. -/
def strSplitDot (s : String) : List String :=
  (splitOnChar '.' s.data).map fun l => ⟨l⟩

/-- Python `int(part)` on the digit-only strings produced by the IP regex
(`None` models `ValueError`). -/
def digitsToNat? (l : List Char) : Option Nat :=
  if l.isEmpty then none
  else l.foldlM (fun acc c => if c.isDigit then some (acc * 10 + (c.toNat - 48)) else none) 0

/-- The per-octet IPv4 validation used in both the parser and the feature
extractor: `parts = x.split('.'); len(parts) == 4 and all(0 <= int(p) <= 255)`
with `ValueError` treated as failure. -/
def validOctets (s : String) : Bool :=
  let parts := strSplitDot s
  parts.length = 4 && parts.all fun p =>
    match digitsToNat? p.data with
    | some n => n ≤ 255
    | none => false

/-- Python regex `\w` on the ASCII texts considered here. -/
def isWordChar (c : Char) : Bool := c.isAlpha || c.isDigit || c = '_'

/-- A Python exception surfaced by the embedded code. -/
inductive PyErr where
  | attributeError (attr : String)
  | valueError (msg : String)
deriving Repr, DecidableEq

instance {ε α : Type} [DecidableEq ε] [DecidableEq α] : DecidableEq (Except ε α)
  | .error e, .error f =>
    if h : e = f then .isTrue (by rw [h]) else .isFalse (fun hh => h (by cases hh; rfl))
  | .error _, .ok _ => .isFalse (fun hh => Except.noConfusion hh)
  | .ok _, .error _ => .isFalse (fun hh => Except.noConfusion hh)
  | .ok x, .ok y =>
    if h : x = y then .isTrue (by rw [h]) else .isFalse (fun hh => h (by cases hh; rfl))

namespace RulesEngine

/-- `RULE_WEIGHTS` from `src/rules_engine.py`. -/
def RULE_WEIGHTS (k : String) : Nat :=
  if k = "spf_fail" then 15
  else if k = "dkim_fail" then 15
  else if k = "dmarc_fail" then 10
  else if k = "domain_mismatch" then 20
  else if k = "url_in_ti_db" then 25
  else if k = "domain_in_ti_db" then 25
  else if k = "reply_anomaly" then 10
  else if k = "dangerous_attachment" then 20
  else if k = "url_shortener" then 10
  else if k = "ip_in_url" then 15
  else 0

/-- The `{triggered, score, details}` dict every rule check returns. -/
structure RuleCheck where
  triggered : Bool
  score : Nat
  details : String
deriving Repr, DecidableEq

/-- The subset of `analyze_headers`' result dict read by the rule engine;
`none` models an absent key. -/
structure HeaderAnalysisDict where
  spf_result : Option String := none
  dkim_result : Option String := none
  dmarc_result : Option String := none
  from_domain : Option String := none
  reply_to_domain : Option String := none
  return_path_domain : Option String := none
  has_re_without_references : Option Bool := none
deriving Repr, DecidableEq

/-- `check_authentication` from `src/rules_engine.py`. -/
def check_authentication (h : HeaderAnalysisDict) : RuleCheck :=
  let spf := h.spf_result.getD "none"
  let dkim := h.dkim_result.getD "none"
  let dmarc := h.dmarc_result.getD "none"
  let spfFail := spf ≠ "" && pyLower spf = "fail"
  let dkimFail := dkim ≠ "" && pyLower dkim = "fail"
  let dmarcFail := dmarc ≠ "" && pyLower dmarc = "fail"
  let score := (if spfFail then RULE_WEIGHTS "spf_fail" else 0) +
    (if dkimFail then RULE_WEIGHTS "dkim_fail" else 0) +
    (if dmarcFail then RULE_WEIGHTS "dmarc_fail" else 0)
  let parts := (if spfFail then ["SPF fail"] else []) ++
    (if dkimFail then ["DKIM fail"] else []) ++
    (if dmarcFail then ["DMARC fail"] else [])
  { triggered := spfFail || dkimFail || dmarcFail
    score := score
    details := if parts.isEmpty then "All authentication passed" else String.intercalate "; " parts }

/-- `check_domain_mismatch` from `src/rules_engine.py`. -/
def check_domain_mismatch (h : HeaderAnalysisDict) : RuleCheck :=
  let fd := h.from_domain.getD ""
  let rt := h.reply_to_domain.getD ""
  let rp := h.return_path_domain.getD ""
  let m1 : List String := if fd ≠ "" && rt ≠ "" && fd ≠ rt then ["Reply-To: " ++ rt] else []
  let m2 : List String := if fd ≠ "" && rp ≠ "" && fd ≠ rp then ["Return-Path: " ++ rp] else []
  let ms := m1 ++ m2
  if ms.isEmpty then { triggered := false, score := 0, details := "All domains match" }
  else
    { triggered := true
      score := RULE_WEIGHTS "domain_mismatch"
      details := "From: " ++ fd ++ " != " ++ String.intercalate ", " ms }

/-- A reputation dict as returned by the TI lookup methods. -/
structure RepDict where
  found : Bool
  threat_type : Option String := none
  source : Option String := none
deriving Repr, DecidableEq

/-- The duck-typed `ti_module` object: each reputation method is present
(`some`) or absent (`none`, so that calling it raises `AttributeError`),
modelling Python attribute lookup. -/
structure TIModuleObj where
  check_url_reputation : Option (String → RepDict) := none
  check_domain_reputation : Option (String → RepDict) := none
  check_ip_reputation : Option (String → RepDict) := none

/-- Accumulator of the three reputation loops in `check_threat_intelligence`. -/
structure TIAcc where
  triggered : Bool
  score : Nat
  found_items : List String
deriving Repr, DecidableEq

/-- One `for item in items` reputation loop of `check_threat_intelligence`:
empty items are skipped; the method is looked up on each call and raises
`AttributeError` when absent. -/
def tiLoop (method : Option (String → RepDict)) (attr tag defThreat : String)
    (w : Nat) (items : List String) (acc : TIAcc) : Except PyErr TIAcc :=
  items.foldlM
    (fun acc item =>
      if item = "" then .ok acc
      else
        match method with
        | none => .error (.attributeError attr)
        | some f =>
          let r := f item
          if r.found then
            .ok ⟨true, acc.score + w,
              acc.found_items ++ [tag ++ ": " ++ item ++ " (" ++ r.threat_type.getD defThreat ++ ")"]⟩
          else .ok acc)
    acc

/-- `check_threat_intelligence` from `src/rules_engine.py`; it calls
`ti_module.check_url_reputation`, `check_domain_reputation` and
`check_ip_reputation` in turn. -/
def check_threat_intelligence (urls domains ips : List String)
    (ti : Option TIModuleObj) : Except PyErr RuleCheck :=
  match ti with
  | none => .ok { triggered := false, score := 0, details := "TI module not available" }
  | some t => do
    let a1 ← tiLoop t.check_url_reputation "check_url_reputation" "URL" "malicious"
      (RULE_WEIGHTS "url_in_ti_db") urls ⟨false, 0, []⟩
    let a2 ← tiLoop t.check_domain_reputation "check_domain_reputation" "Domain" "phishing"
      (RULE_WEIGHTS "domain_in_ti_db") domains a1
    let a3 ← tiLoop t.check_ip_reputation "check_ip_reputation" "IP" "malicious"
      (RULE_WEIGHTS "url_in_ti_db") ips a2
    .ok { triggered := a3.triggered
          score := a3.score
          details := if a3.found_items.isEmpty then "No threats found in TI database"
            else String.intercalate "; " a3.found_items }

/-- `check_reply_anomaly` from `src/rules_engine.py`. -/
def check_reply_anomaly (h : HeaderAnalysisDict) : RuleCheck :=
  if h.has_re_without_references.getD false then
    { triggered := true
      score := RULE_WEIGHTS "reply_anomaly"
      details := "Subject contains \"Re:\" but References header is missing" }
  else { triggered := false, score := 0, details := "No reply anomaly detected" }

/-- Modelled from the spec: `DANGEROUS_EXTENSIONS` is imported by
`src/rules_engine.py` from `src/utils.py`, but no definition appears in the
sources; spec section 4.8 enumerates the extension set. -/
def DANGEROUS_EXTENSIONS : List String :=
  [".exe", ".scr", ".bat", ".cmd", ".com", ".pif", ".vbs", ".js", ".jar", ".app",
   ".deb", ".pkg", ".dmg", ".msi", ".dll", ".lnk", ".hta", ".wsf", ".ps1", ".sh",
   ".run", ".bin", ".rar", ".7z", ".zip"]

/-- One attachment-metadata dict as consumed by `check_dangerous_attachments`. -/
structure AttachmentDict where
  filename : Option String := none
deriving Repr, DecidableEq

/-- `check_dangerous_attachments` from `src/rules_engine.py`. -/
def check_dangerous_attachments (attachments : List AttachmentDict) : RuleCheck :=
  if attachments.isEmpty then
    { triggered := false, score := 0, details := "No attachments found" }
  else
    let dangerous_files := attachments.filterMap fun a =>
      let fn := a.filename.getD ""
      if fn = "" then none
      else if DANGEROUS_EXTENSIONS.any (fun ext => strEndsWith (pyLower fn) ext) then some fn
      else none
    if dangerous_files.isEmpty then
      { triggered := false, score := 0, details := "No dangerous attachments found" }
    else
      { triggered := true
        score := RULE_WEIGHTS "dangerous_attachment"
        details := "Dangerous attachments: " ++ String.intercalate ", " dangerous_files }

/-- The `url_analyses` sub-dict read by `check_url_characteristics`; the
elements of the detection lists are opaque to the rule engine. -/
structure UrlAnalysesInner where
  shortener_detections : List Unit := []
  ip_detections : List Unit := []
deriving Repr, DecidableEq

/-- The `url_analysis` argument dict of `check_url_characteristics`. -/
structure UrlAnalysisDict where
  url_analyses : Option UrlAnalysesInner := none
deriving Repr, DecidableEq

/-- `check_url_characteristics` from `src/rules_engine.py`. -/
def check_url_characteristics (u : UrlAnalysisDict) : RuleCheck :=
  let inner := u.url_analyses.getD {}
  let sc := inner.shortener_detections.length
  let ic := inner.ip_detections.length
  let score := (if sc ≠ 0 then RULE_WEIGHTS "url_shortener" * sc else 0) +
    (if ic ≠ 0 then RULE_WEIGHTS "ip_in_url" * ic else 0)
  let parts := (if sc ≠ 0 then ["URL shorteners found: " ++ toString sc] else []) ++
    (if ic ≠ 0 then ["IP addresses in URLs: " ++ toString ic] else [])
  { triggered := sc ≠ 0 || ic ≠ 0
    score := score
    details := if parts.isEmpty then "No suspicious URL characteristics"
      else String.intercalate "; " parts }

/-- One entry of `triggered_rules`. -/
structure TriggeredRule where
  rule : String
  weight : Nat
deriving Repr, DecidableEq

/-- `calculate_risk_score` from `src/rules_engine.py` (every entry carries a
`weight` key in `evaluate_all_rules`, so the dict branch always applies). -/
def calculate_risk_score (triggered_rules : List TriggeredRule) : Nat :=
  if triggered_rules.isEmpty then 0
  else min 100 (triggered_rules.foldl (fun acc r => acc + r.weight) 0)

/-- `classify_risk_level` from `src/rules_engine.py`. -/
def classify_risk_level (risk_score : Nat) : String :=
  if risk_score < 30 then "LOW"
  else if risk_score ≤ 70 then "MEDIUM"
  else "HIGH"

/-- The subset of `parse_email`'s result dict read by `evaluate_all_rules`. -/
structure ParsedEmailDict where
  urls : List String := []
  domains : List String := []
  ips : List String := []
  attachments_metadata : List AttachmentDict := []

/-- The result dict of `evaluate_all_rules`. -/
structure RuleResultDict where
  risk_score : Nat
  risk_level : String
  triggered_rules : List TriggeredRule
  rule_details : List (String × RuleCheck)
deriving Repr, DecidableEq

/-- `evaluate_all_rules` from `src/rules_engine.py`. -/
def evaluate_all_rules (header_analysis : HeaderAnalysisDict) (url_analysis : UrlAnalysisDict)
    (parsed_email : ParsedEmailDict) (ti : Option TIModuleObj) : Except PyErr RuleResultDict := do
  let auth := check_authentication header_analysis
  let t1 : List TriggeredRule := if auth.triggered then [⟨"authentication", auth.score⟩] else []
  let dm := check_domain_mismatch header_analysis
  let t2 : List TriggeredRule := if dm.triggered then [⟨"domain_mismatch", dm.score⟩] else []
  let ra := check_reply_anomaly header_analysis
  let t3 : List TriggeredRule := if ra.triggered then [⟨"reply_anomaly", ra.score⟩] else []
  let tiR ← check_threat_intelligence parsed_email.urls parsed_email.domains parsed_email.ips ti
  let t4 : List TriggeredRule := if tiR.triggered then [⟨"threat_intelligence", tiR.score⟩] else []
  let da := check_dangerous_attachments parsed_email.attachments_metadata
  let t5 : List TriggeredRule := if da.triggered then [⟨"dangerous_attachment", da.score⟩] else []
  let uc := check_url_characteristics url_analysis
  let t6 : List TriggeredRule := if uc.triggered then [⟨"url_characteristics", uc.score⟩] else []
  let triggered := t1 ++ t2 ++ t3 ++ t4 ++ t5 ++ t6
  let rs := calculate_risk_score triggered
  .ok { risk_score := rs
        risk_level := classify_risk_level rs
        triggered_rules := triggered
        rule_details := [("authentication", auth), ("domain_mismatch", dm),
          ("reply_anomaly", ra), ("threat_intelligence", tiR),
          ("dangerous_attachments", da), ("url_characteristics", uc)] }

/-- Concrete header facts of spec scenario 2: triple authentication failure
and a Reply-To domain differing from the From domain. -/
def tripleFailHeader : HeaderAnalysisDict :=
  { spf_result := some "fail", dkim_result := some "fail", dmarc_result := some "fail"
    from_domain := some "sberbank.ru", reply_to_domain := some "evil-domain.tk" }

end RulesEngine

namespace ThreatIntel

/-- One row of `malicious_domains` / `malicious_ips` (`key` is the UNIQUE
`domain` / `ip` column; empty string models SQL NULL). -/
structure DBRow where
  key : String
  threat_type : String
  date_added : String
  source : String
deriving Repr, DecidableEq

/-- The two tables created by `create_database_schema`. -/
structure TIDB where
  malicious_domains : List DBRow := []
  malicious_ips : List DBRow := []
deriving Repr, DecidableEq

/-- A `ThreatIntelligence` instance: database plus the `OrderedDict` LRU cache
(association list in insertion order, oldest first). -/
structure TIState where
  db : TIDB := {}
  cache : List (String × RulesEngine.RepDict) := []
  max_cache_size : Nat := 10000
deriving Repr, DecidableEq

/-- `OrderedDict` lookup. -/
def cacheGet (c : List (String × RulesEngine.RepDict)) (k : String) :
    Option RulesEngine.RepDict :=
  (c.find? (fun p => p.1 = k)).map (·.2)

/-- `OrderedDict.move_to_end(k)`. -/
def cacheMoveToEnd (c : List (String × RulesEngine.RepDict)) (k : String) :
    List (String × RulesEngine.RepDict) :=
  match c.find? (fun p => p.1 = k) with
  | none => c
  | some e => c.filter (fun p => p.1 ≠ k) ++ [e]

/-- `self.cache[k] = v` on an `OrderedDict`: update in place if present,
else append newest-last. -/
def cacheAssign (c : List (String × RulesEngine.RepDict)) (k : String)
    (v : RulesEngine.RepDict) : List (String × RulesEngine.RepDict) :=
  if c.any (fun p => p.1 = k) then c.map (fun p => if p.1 = k then (k, v) else p)
  else c ++ [(k, v)]

/-- The eviction step `if len(cache) >= max: cache.popitem(last=False)`. -/
def cacheEvict (s : TIState) : List (String × RulesEngine.RepDict) :=
  if s.max_cache_size ≤ s.cache.length then s.cache.drop 1 else s.cache

/-- Python `x or d` on a string column value (empty models NULL/falsy). -/
def orDefault (x d : String) : String := if x = "" then d else x

/-- `check_ip_reputation` from `src/threat_intelligence.py`; returns the
reputation dict and the updated instance state. -/
def check_ip_reputation (s : TIState) (ip_address : String) :
    RulesEngine.RepDict × TIState :=
  if ip_address = "" then (⟨false, some "clean", none⟩, s)
  else
    let ck := "ip:" ++ ip_address
    match cacheGet s.cache ck with
    | some r => (r, { s with cache := cacheMoveToEnd s.cache ck })
    | none =>
      let rep : RulesEngine.RepDict :=
        match s.db.malicious_ips.find? (fun r => r.key = ip_address) with
        | some row => ⟨true, some (orDefault row.threat_type "malicious"),
            some (orDefault row.source "URLhaus")⟩
        | none => ⟨false, some "clean", none⟩
      (rep, { s with cache := cacheAssign (cacheEvict s) ck rep })

/-- `check_domain_reputation` from `src/threat_intelligence.py`.  The
tldextract-based `normalize_domain_for_ti` is an explicit parameter `tldx`
(`none`/`some ""` model its falsy results). -/
def check_domain_reputation (tldx : String → Option String) (s : TIState)
    (domain : String) : RulesEngine.RepDict × TIState :=
  if domain = "" then (⟨false, some "clean", none⟩, s)
  else
    let nd := (tldx domain).getD ""
    let normalized := if nd = "" then pyLower domain else nd
    let ck := "domain:" ++ normalized
    match cacheGet s.cache ck with
    | some r => (r, { s with cache := cacheMoveToEnd s.cache ck })
    | none =>
      let rep : RulesEngine.RepDict :=
        match s.db.malicious_domains.find? (fun r => r.key = normalized) with
        | some row => ⟨true, some (orDefault row.threat_type "malicious"),
            some (orDefault row.source "URLhaus")⟩
        | none => ⟨false, some "clean", none⟩
      (rep, { s with cache := cacheAssign (cacheEvict s) ck rep })

/-- Result dict of `check_domains_batch`. -/
structure BatchResult where
  malicious_domains : List String := []
  domain_in_urlhaus : Bool := false
  domain_in_openphish : Bool := false
deriving Repr, DecidableEq

/-- `check_domains_batch` from `src/threat_intelligence.py`: one `IN (…)`
query, then per-hit flags and cache updates. -/
def check_domains_batch (tldx : String → Option String) (s : TIState)
    (domains : List String) : BatchResult × TIState :=
  if domains.isEmpty then ({}, s)
  else
    let normalized : List (String × String) := domains.filterMap fun d =>
      if d = "" then none
      else
        let nd := (tldx d).getD ""
        if nd = "" then none else some (d, nd)
    if normalized.isEmpty then ({}, s)
    else
      let found := s.db.malicious_domains.filter
        (fun r => normalized.any (fun p => p.2 = r.key))
      let info : String → Option DBRow := fun k => found.find? (fun r => r.key = k)
      let step := fun (acc : BatchResult × TIState) (p : String × String) =>
        match info p.2 with
        | none => acc
        | some row =>
          let md := if acc.1.malicious_domains.contains p.1 then acc.1.malicious_domains
            else acc.1.malicious_domains ++ [p.1]
          let src := orDefault row.source "URLhaus"
          let srcLower := pyLower src
          let uh := acc.1.domain_in_urlhaus || strContains srcLower "urlhaus"
          let op := acc.1.domain_in_openphish || strContains srcLower "openphish"
          let ck := "domain:" ++ p.2
          let cache' :=
            if (cacheGet acc.2.cache ck).isSome then cacheMoveToEnd acc.2.cache ck
            else cacheAssign (cacheEvict acc.2) ck
              ⟨true, some (orDefault row.threat_type "malicious"), some src⟩
          (⟨md, uh, op⟩, { acc.2 with cache := cache' })
      normalized.foldl step ({}, s)

/-- Result dict of `check_reputation`. -/
structure ReputationResult where
  malicious_domains : List String := []
  malicious_ips : List String := []
  domain_in_urlhaus : Bool := false
  domain_in_openphish : Bool := false
  ip_in_blacklist : Bool := false
deriving Repr, DecidableEq

/-- `check_reputation` from `src/threat_intelligence.py`. -/
def check_reputation (tldx : String → Option String) (s : TIState)
    (domains ips : List String) : ReputationResult × TIState :=
  let batch := check_domains_batch tldx s domains
  let step := fun (acc : (List String × Bool) × TIState) (ip : String) =>
    if ip = "" then acc
    else
      let res := check_ip_reputation acc.2 ip
      if res.1.found then
        ((if acc.1.1.contains ip then acc.1.1 else acc.1.1 ++ [ip], true), res.2)
      else (acc.1, res.2)
  let fold := ips.foldl step (([], false), batch.2)
  (⟨batch.1.malicious_domains, fold.1.1, batch.1.domain_in_urlhaus,
    batch.1.domain_in_openphish, fold.1.2⟩, fold.2)

/-- `clear_cache` from `src/threat_intelligence.py`. -/
def clear_cache (s : TIState) : TIState := { s with cache := [] }

/-- The attribute surface a `ThreatIntelligence` instance presents to the rule
engine's duck-typed calls: `check_domain_reputation` and `check_ip_reputation`
exist, but no `check_url_reputation` is defined anywhere in the class, so that
attribute lookup is `none`.  The two present methods are exposed through their
returned dict (the rule engine never reads the mutated instance state back,
and on a cache-consistent state the returned dict is state-independent). -/
def asModule (tldx : String → Option String) (s : TIState) : RulesEngine.TIModuleObj :=
  { check_url_reputation := none
    check_domain_reputation := some (fun d => (check_domain_reputation tldx s d).1)
    check_ip_reputation := some (fun ip => (check_ip_reputation s ip).1) }

end ThreatIntel

namespace UpdateThreatIntel

open ThreatIntel

/-- Python whitespace for `str.strip()`. -/
def isPySpace (c : Char) : Bool :=
  c = ' ' || c = '\t' || c = '\n' || c = '\r' || c = Char.ofNat 11 || c = Char.ofNat 12

/-- Python `str.strip()`. -/
def pyStrip (s : String) : String :=
  ⟨((s.data.dropWhile isPySpace).reverse.dropWhile isPySpace).reverse⟩

/-- Which table a processed URLhaus row targets. -/
inductive FeedKind where
  | domain
  | ip
deriving Repr, DecidableEq

/-- `INSERT OR IGNORE` against the UNIQUE key column. -/
def insertOrIgnore (rows : List DBRow) (r : DBRow) : List DBRow :=
  if rows.any (fun x => x.key = r.key) then rows else rows ++ [r]

/-- Net database effect of one processed URLhaus row (`executemany` batches of
1000 insert the same tuples in the same per-table order, so batching does not
change the resulting tables). -/
def applyUrlhausRow (date : String) (db : TIDB) (r : FeedKind × String × String) : TIDB :=
  match r.1 with
  | .ip => { db with malicious_ips := insertOrIgnore db.malicious_ips ⟨r.2.1, r.2.2, date, "URLhaus"⟩ }
  | .domain => { db with malicious_domains := insertOrIgnore db.malicious_domains ⟨r.2.1, r.2.2, date, "URLhaus"⟩ }

/-- `update_from_urlhaus` from `scripts/update_threat_intel.py`.  `proc`
models, per data line, the CSV field split plus `_process_url_for_urlhaus`
(urlparse/tldextract based): it yields the target kind, key and threat type,
or `none` for rows that are skipped (empty url or unusable host).  When the
file holds no data lines the function returns before committing or clearing
the cache. -/
def update_from_urlhaus (proc : String → Option (FeedKind × String × String))
    (date : String) (lines : List String) (s : TIState) : TIState :=
  let data_lines := lines.filter fun l => pyStrip l ≠ "" && !strStartsWith (pyStrip l) "#"
  if data_lines.isEmpty then s
  else
    let rows := data_lines.filterMap proc
    { s with db := rows.foldl (applyUrlhausRow date) s.db, cache := [] }

/-- Net database effect of one processed OpenPhish line. -/
def applyOpenphishRow (date : String) (db : TIDB) (d : String) : TIDB :=
  { db with malicious_domains := insertOrIgnore db.malicious_domains ⟨d, "phishing", date, "OpenPhish"⟩ }

/-- `update_from_openphish` from `scripts/update_threat_intel.py`.  `proc`
models `_process_url_for_openphish` (urlparse/tldextract based): the
normalised non-IP host of a URL line, or `none` when the line is skipped. -/
def update_from_openphish (proc : String → Option String)
    (date : String) (lines : List String) (s : TIState) : TIState :=
  let rows := lines.filterMap fun l =>
    let url := pyStrip l
    if url = "" then none else proc url
  { s with db := rows.foldl (applyOpenphishRow date) s.db, cache := [] }

/-- Concrete URLhaus line processor: one IP row and one domain row. -/
def witnessProcU (l : String) : Option (FeedKind × String × String) :=
  if l = "http://7.7.7.7/x" then some (.ip, "7.7.7.7", "malware")
  else if l = "http://evil.tk/x" then some (.domain, "evil.tk", "malware_download")
  else none

/-- Concrete OpenPhish line processor: one domain. -/
def witnessProcO (l : String) : Option String :=
  if l = "http://phish.tk/login" then some "phish.tk" else none

/-- Concrete domain normaliser: the identity. -/
def witnessTldx (d : String) : Option String := some d

/-- Pre-ingestion state with stale negative cache entries for the very
indicators the URLhaus feed is about to insert. -/
def witnessStateU : TIState :=
  { cache := [("ip:7.7.7.7", ⟨false, some "clean", none⟩),
              ("domain:evil.tk", ⟨false, some "clean", none⟩)] }

/-- Pre-ingestion state with a stale negative cache entry for the domain the
OpenPhish feed is about to insert. -/
def witnessStateO : TIState :=
  { cache := [("domain:phish.tk", ⟨false, some "clean", none⟩)] }

end UpdateThreatIntel

namespace Aggregator

/-- A CPython float as the aggregator sees it: NaN, a signed infinity, or a
finite value (idealised as an exact rational; all claim inputs stay exactly
representable and no operation here overflows). -/
inductive PF where
  | nan
  | inf
  | ninf
  | fin (q : ℚ)
deriving Repr, DecidableEq

/-- IEEE-754 `<` (false whenever either side is NaN). -/
def PF.lt : PF → PF → Bool
  | .nan, _ => false
  | _, .nan => false
  | .inf, _ => false
  | _, .inf => true
  | .ninf, .ninf => false
  | .ninf, _ => true
  | .fin _, .ninf => false
  | .fin a, .fin b => a < b

/-- IEEE-754 `>`. -/
def PF.gt (x y : PF) : Bool := PF.lt y x

/-- IEEE-754 `>=` (false whenever either side is NaN). -/
def PF.ge : PF → PF → Bool
  | .nan, _ => false
  | _, .nan => false
  | .inf, _ => true
  | _, .inf => false
  | .ninf, .ninf => true
  | .ninf, _ => false
  | .fin _, .ninf => true
  | .fin a, .fin b => b ≤ a

/-- IEEE-754 addition (the sign of zero is irrelevant here). -/
def PF.add : PF → PF → PF
  | .nan, _ => .nan
  | _, .nan => .nan
  | .inf, .ninf => .nan
  | .ninf, .inf => .nan
  | .inf, _ => .inf
  | _, .inf => .inf
  | .ninf, _ => .ninf
  | _, .ninf => .ninf
  | .fin a, .fin b => .fin (a + b)

/-- IEEE-754 multiplication. -/
def PF.mul : PF → PF → PF
  | .nan, _ => .nan
  | _, .nan => .nan
  | .inf, .inf => .inf
  | .inf, .ninf => .ninf
  | .ninf, .inf => .ninf
  | .ninf, .ninf => .inf
  | .inf, .fin b => if b = 0 then .nan else if 0 < b then .inf else .ninf
  | .fin a, .inf => if a = 0 then .nan else if 0 < a then .inf else .ninf
  | .ninf, .fin b => if b = 0 then .nan else if 0 < b then .ninf else .inf
  | .fin a, .ninf => if a = 0 then .nan else if 0 < a then .ninf else .inf
  | .fin a, .fin b => .fin (a * b)

/-- Division by the literal `100.0` in `_normalize_risk_score`. -/
def PF.div100 : PF → PF
  | .nan => .nan
  | .inf => .inf
  | .ninf => .ninf
  | .fin a => .fin (a / 100)

/-- Is the value a finite number lying in [0, 1]? -/
def PF.mem01 : PF → Bool
  | .fin q => 0 ≤ q && q ≤ 1
  | _ => false

/-- Rational clamp to [0, 1], used to state the spec's formula. -/
def clamp01q (q : ℚ) : ℚ := max 0 (min 1 q)

/-- `AggregationConfig` from `src/aggregator.py` with its defaults. -/
structure AggregationConfig where
  w_rules : PF := .fin (3/10)
  w_ml : PF := .fin (7/10)
  threshold : PF := .fin (1/2)
deriving Repr, DecidableEq

/-- `_clamp01` from `src/aggregator.py`: both comparisons are false on NaN,
so a NaN input passes through unclamped. -/
def _clamp01 (x : PF) : PF :=
  if PF.lt x (.fin 0) then .fin 0
  else if PF.gt x (.fin 1) then .fin 1
  else x

/-- `_normalize_risk_score` from `src/aggregator.py`.  `float()` succeeds on
every `PF` (the dicts modelled here hold numbers or nothing), so the
`except` branch returning 0.0 is unreachable. -/
def _normalize_risk_score (risk_score : PF) : PF :=
  _clamp01 risk_score.div100

/-- The keys of `ml_result` read by the aggregator (`none` = key absent). -/
structure MLResultDict where
  phishing_probability : Option PF := none
  confidence : Option PF := none
deriving Repr, DecidableEq

/-- The key of `rules_result` read by `aggregate_scores`. -/
structure RulesResultDict where
  risk_score : Option PF := none
deriving Repr, DecidableEq

/-- `_extract_ml_confidence` from `src/aggregator.py`. -/
def _extract_ml_confidence (ml_result : MLResultDict) : PF :=
  let ml_conf :=
    match ml_result.phishing_probability with
    | some v => v
    | none => ml_result.confidence.getD (.fin 0)
  _clamp01 ml_conf

/-- The dict returned by `aggregate_scores`. -/
structure AggDict where
  ml_confidence : PF
  risk_score : PF
  risk_norm : PF
  w_ml : PF
  w_rules : PF
  threshold : PF
  final_score : PF
deriving Repr, DecidableEq

/-- `aggregate_scores` from `src/aggregator.py`. -/
def aggregate_scores (ml_result : MLResultDict) (rules_result : RulesResultDict)
    (config : AggregationConfig) : AggDict :=
  let ml_conf := _extract_ml_confidence ml_result
  let risk_score := rules_result.risk_score.getD (.fin 0)
  let risk_norm := _normalize_risk_score risk_score
  let final_score :=
    _clamp01 (PF.add (PF.mul config.w_ml ml_conf) (PF.mul config.w_rules risk_norm))
  { ml_confidence := ml_conf
    risk_score := risk_score
    risk_norm := risk_norm
    w_ml := config.w_ml
    w_rules := config.w_rules
    threshold := config.threshold
    final_score := final_score }

/-- `decide` from `src/aggregator.py`: `int(float(final_score) >= float(threshold))`. -/
def decide (final_score threshold : PF) : Nat :=
  if PF.ge final_score threshold then 1 else 0

end Aggregator

namespace MLClassifier

/-- The result of a `decision_function` call as `np.asarray` sees it: a 1-D
score vector, or a 2-D per-class score matrix. -/
inductive DFOut where
  | one (v : List ℚ)
  | two (m : List (List ℚ))

/-- The duck-typed pickled model object: `predict` is always present;
`predict_proba` (per-row class probabilities) and `decision_function` are
looked up with `hasattr`, so `none` models their absence.  `classes_` is
read with `getattr(…, "classes_", None)`. -/
structure PyModel where
  predict : List (List ℚ) → List Int
  predict_proba : Option (List (List ℚ) → List (List ℚ)) := none
  decision_function : Option (List (List ℚ) → DFOut) := none
  classes_ : Option (List Int) := none

/-- `_get_class_indices` from `src/ml_classifier.py`. -/
def _get_class_indices (classes_ : Option (List Int)) : Nat × Nat :=
  match classes_ with
  | none => (0, 1)
  | some classes =>
    if classes.contains 0 && classes.contains 1 then
      (classes.findIdx (fun c => c = 0), classes.findIdx (fun c => c = 1))
    else if 2 ≤ classes.length then (0, 1)
    else (0, 0)

/-- `_predict_phishing_probability` from `src/ml_classifier.py`.  The
numerically stable sigmoid built on `math.exp` is the explicit parameter
`sigmoid`; row indexing `probas[:, idx]` is modelled with a 0.0 default for
out-of-range columns. -/
def _predict_phishing_probability (sigmoid : ℚ → ℚ) (model : PyModel)
    (X : List (List ℚ)) : List ℚ :=
  match model.predict_proba with
  | some pp =>
    let probas := pp X
    let phishing_idx := (_get_class_indices model.classes_).2
    probas.map (fun row => row.getD phishing_idx 0)
  | none =>
    match model.decision_function with
    | some df =>
      match df X with
      | .two m =>
        if 2 ≤ ((m.head?.map (fun r => r.length)).getD 0) then
          let phishing_idx := (_get_class_indices model.classes_).2
          (m.map (fun row => row.getD phishing_idx 0)).map sigmoid
        else (m.flatten).map sigmoid
      | .one v => v.map sigmoid
    | none => X.map (fun _ => (0 : ℚ))

/-- The dict returned by `classify_feature_vector` (`model_type`, a Python
runtime type name, is not modelled). -/
structure ClassifyResult where
  prediction : Int
  confidence : ℚ
  phishing_probability : ℚ
  class_label : String
deriving Repr, DecidableEq

/-- `classify_feature_vector` from `src/ml_classifier.py` on a 1-D feature
vector (reshaped to one row); `self.model is None` raises `ValueError`, and
`[0]` on an empty prediction array raises `IndexError` (modelled as a
`valueError` tagged "IndexError"). -/
def classify_feature_vector (sigmoid : ℚ → ℚ) (model : Option PyModel)
    (feature_vector : List ℚ) : Except PyErr ClassifyResult :=
  match model with
  | none => .error (.valueError "Model not loaded. Call load_model() first.")
  | some m =>
    let X := [feature_vector]
    match (m.predict X).head? with
    | none => .error (.valueError "IndexError")
    | some pred =>
      match (_predict_phishing_probability sigmoid m X).head? with
      | none => .error (.valueError "IndexError")
      | some prob_phishing =>
        let prob_legit := 1 - prob_phishing
        .ok { prediction := pred
              confidence := if pred = 1 then prob_phishing else prob_legit
              phishing_probability := prob_phishing
              class_label := if pred = 1 then "phishing" else "legitimate" }

end MLClassifier

namespace FeatureExtractor

/-- `URGENCY_KEYWORDS` from `src/feature_extractor.py` (a Python set; its
iteration order does not affect the summed count). -/
def URGENCY_KEYWORDS : List String :=
  ["urgent", "immediately", "asap", "as soon as possible", "hurry",
   "expire", "expiring", "expires", "expiration", "deadline",
   "action required", "verify", "verify now", "confirm", "update",
   "suspended", "suspend", "locked", "lock", "blocked", "block",
   "security", "security alert", "unauthorized", "fraud", "fraudulent",
   "verify account", "verify email", "click here", "click now",
   "limited time", "limited offer", "act now", "don\x27t miss"]

/-- `SUSPICIOUS_TLDS` from `src/feature_extractor.py`. -/
def SUSPICIOUS_TLDS : List String :=
  [".xin", ".win", ".help", ".bond", ".cfd", ".finance",
   ".top", ".xyz", ".icu", ".support", ".vip", ".pro", ".sbs",
   ".site", ".online", ".click", ".tk", ".ml", ".ga", ".cf",
   ".gq", ".club", ".work"]

/-- Non-overlapping scan counting `\b<kw>\b` matches (`re.findall` of the
escaped keyword with word boundaries); `prev` is the character before the
scan position, `fuel` bounds the recursion by the text length. -/
def scanKW (kw : List Char) : Nat → Option Char → List Char → Nat
  | 0, _, _ => 0
  | _ + 1, _, [] => 0
  | fuel + 1, prev, c :: rest =>
    let okL := match prev with
      | none => true
      | some p => !isWordChar p
    if okL && listIsPre kw (c :: rest) then
      let after := List.drop kw.length (c :: rest)
      let okR := match after.head? with
        | none => true
        | some a => !isWordChar a
      if okR then 1 + scanKW kw fuel kw.getLast? after
      else scanKW kw fuel (some c) rest
    else scanKW kw fuel (some c) rest

/-- `len(re.findall(r'\b' + re.escape(kw) + r'\b', text))`. -/
def pyCountWholeWord (kw text : String) : Nat :=
  scanKW kw.data text.data.length none text.data

/-- The state of a `FeatureExtractor` instance relevant to inference: the
fitted flags and the fitted `MinMaxScaler` parameters (sklearn transforms as
`X * scale_ + min_`; the default `clip=False` applies, also abstracting the
fitted TF-IDF vocabulary behind `is_fitted`). -/
structure FEState where
  is_fitted : Bool := false
  is_scaler_fitted : Bool := false
  scaler_scale : List ℚ := []
  scaler_min : List ℚ := []

/-- The keys of `parse_email`'s result read by the synthetic extractors
(note the code reads `attachments`, a key the parser does not emit, so the
list is empty on real parser output; it stays a field here for fidelity). -/
structure FEParsedEmail where
  urls : List String := []
  attachments : List Unit := []
  subject : String := ""
  body_plain : String := ""
  body_html : String := ""

/-- The keys of `url_analysis` read by `extract_binary_indicators`
(`.get(…, False)` — absent keys behave as `false`). -/
structure FEUrlAnalysis where
  has_url_shortener : Bool := false
  has_ip_in_url : Bool := false

/-- `MinMaxScaler.transform` on one sample: `x * scale_ + min_`,
element-wise, with no clipping (`clip=False` default). -/
def minmaxTransform (scale min_ : List ℚ) (x : List ℚ) : List ℚ :=
  (x.zip (scale.zip min_)).map fun p => p.1 * p.2.1 + p.2.2

/-- `_extract_ips_from_urls` from `src/feature_extractor.py`;
`extract_hostname_from_url` (urlparse-based) is the parameter `hostOf`,
returning the hostname and the IP flag.  `list(set(…))` is modelled as
deduplication (only the count is consumed downstream). -/
def _extract_ips_from_urls (hostOf : String → Option String × Bool)
    (urls : List String) : List String :=
  (urls.foldl (fun acc url =>
    match hostOf url with
    | (some h, true) => if h ≠ "" && validOctets h then acc ++ [h] else acc
    | _ => acc) []).dedup

/-- One label of the domain regex: `[a-z0-9]([a-z0-9\-]{0,61}[a-z0-9])?`. -/
def labelOk : List Char → Bool
  | [] => false
  | c :: rest =>
    (('a' ≤ c && c ≤ 'z') || ('0' ≤ c && c ≤ '9')) &&
      (rest.isEmpty ||
        (rest.length ≤ 62 &&
          rest.dropLast.all (fun d =>
            ('a' ≤ d && d ≤ 'z') || ('0' ≤ d && d ≤ '9') || d = '-') &&
          (match rest.getLast? with
            | some d => ('a' ≤ d && d ≤ 'z') || ('0' ≤ d && d ≤ '9')
            | none => true)))

/-- `re.match(r'^[a-z0-9]([a-z0-9\-]{0,61}[a-z0-9])?(\.[a-z0-9]([a-z0-9\-]{0,61}[a-z0-9])?)*\.[a-z]{2,}$', domain)`:
every dot-separated part but the last is a label and the last part is at
least two lowercase letters. -/
def domainRegexOk (s : String) : Bool :=
  let parts := splitOnChar '.' s.data
  2 ≤ parts.length && parts.dropLast.all labelOk &&
    (match parts.getLast? with
      | some last => 2 ≤ last.length && last.all (fun c => 'a' ≤ c && c ≤ 'z')
      | none => false)

/-- `_extract_domains_from_urls` from `src/feature_extractor.py`. -/
def _extract_domains_from_urls (hostOf : String → Option String × Bool)
    (urls : List String) : List String :=
  (urls.foldl (fun acc url =>
    match hostOf url with
    | (some h, false) =>
      if h ≠ "" then
        let domain := if strStartsWith (pyLower h) "www." then ⟨h.data.drop 4⟩ else h
        let domain := pyLower domain
        if domainRegexOk domain then acc ++ [domain] else acc
      else acc
    | _ => acc) []).dedup

/-- `_is_long_domain` from `src/feature_extractor.py` (threshold 20). -/
def _is_long_domain (domain : String) : Bool := 20 < domain.data.length

/-- `_is_suspicious_tld` from `src/feature_extractor.py`; `tldSuffix` models
`tldextract.extract(domain).suffix` (the except-fallback is unreachable for
the in-library extraction). -/
def _is_suspicious_tld (tldSuffix : String → String) (domain : String) : Bool :=
  let suf := tldSuffix domain
  let tld := if suf ≠ "" then "." ++ suf else ""
  SUSPICIOUS_TLDS.contains (pyLower tld)

/-- `extract_quantitative_features` from `src/feature_extractor.py`:
`(log1p-normalised, raw)`; `log1p` models `np.log1p`. -/
def extract_quantitative_features (log1p : ℚ → ℚ)
    (hostOf : String → Option String × Bool) (parsed_email : FEParsedEmail) :
    List ℚ × List ℚ :=
  let raw : List ℚ := [(parsed_email.urls.length : ℚ),
    (parsed_email.attachments.length : ℚ),
    ((_extract_ips_from_urls hostOf parsed_email.urls).length : ℚ)]
  (raw.map log1p, raw)

/-- `extract_structural_features` from `src/feature_extractor.py`. -/
def extract_structural_features (log1p : ℚ → ℚ) (parsed_email : FEParsedEmail) :
    List ℚ × List ℚ :=
  let body_length : ℚ :=
    if parsed_email.body_plain ≠ "" then (parsed_email.body_plain.data.length : ℚ)
    else (parsed_email.body_html.data.length : ℚ)
  let raw : List ℚ := [(parsed_email.subject.data.length : ℚ), body_length]
  (raw.map log1p, raw)

/-- `extract_binary_indicators` from `src/feature_extractor.py`. -/
def extract_binary_indicators (hostOf : String → Option String × Bool)
    (tldSuffix : String → String) (url_analysis : FEUrlAnalysis)
    (parsed_email : FEParsedEmail) : List ℚ :=
  let domains := _extract_domains_from_urls hostOf parsed_email.urls
  [(if url_analysis.has_url_shortener then 1 else 0),
   (if domains.any _is_long_domain then 1 else 0),
   (if domains.any (_is_suspicious_tld tldSuffix) then 1 else 0),
   (if url_analysis.has_ip_in_url then 1 else 0)]

/-- `extract_linguistic_features` from `src/feature_extractor.py`. -/
def extract_linguistic_features (log1p : ℚ → ℚ) (text : String) :
    List ℚ × List ℚ :=
  if text = "" then ([log1p 0], [0])
  else
    let lower := pyLower text
    let urgency_count : Nat :=
      (URGENCY_KEYWORDS.map (fun kw => pyCountWholeWord kw lower)).foldl (fun a b => a + b) 0
    ([log1p (urgency_count : ℚ)], [(urgency_count : ℚ)])

/-- The result of `extract_all_features`: the TF-IDF vector, the combined
vector, and the raw synthetic values reported in `synthetic_features`. -/
structure FeatOut where
  tfidf_vector : List ℚ
  feature_vector : List ℚ
  quantitative_raw : List ℚ
  structural_raw : List ℚ
  binary : List ℚ
  linguistic_raw : List ℚ
deriving Repr, DecidableEq

/-- `extract_all_features` from `src/feature_extractor.py`: log1p-normalised
quantitative/structural/linguistic features and raw binary flags are
concatenated, MinMax-scaled when the scaler is fitted (no clipping), and
appended to the TF-IDF vector (`vectorize` models the fitted vectoriser's
transform; an unfitted vectoriser raises `ValueError`). -/
def extract_all_features (log1p : ℚ → ℚ) (hostOf : String → Option String × Bool)
    (tldSuffix : String → String) (vectorize : String → List ℚ) (st : FEState)
    (parsed_email : FEParsedEmail) (translated_text : String)
    (url_analysis : FEUrlAnalysis) : Except PyErr FeatOut :=
  let q := extract_quantitative_features log1p hostOf parsed_email
  let s := extract_structural_features log1p parsed_email
  let b := extract_binary_indicators hostOf tldSuffix url_analysis parsed_email
  let lng := extract_linguistic_features log1p translated_text
  let synth := q.1 ++ s.1 ++ b ++ lng.1
  let synth := if st.is_scaler_fitted then
      minmaxTransform st.scaler_scale st.scaler_min synth
    else synth
  if st.is_fitted then
    let tfidf := vectorize translated_text
    .ok { tfidf_vector := tfidf
          feature_vector := tfidf ++ synth
          quantitative_raw := q.2
          structural_raw := s.2
          binary := b
          linguistic_raw := lng.2 }
  else
    .error (.valueError
      "Vectorizer must be fitted before vectorization. Call fit_vectorizer() first.")

/-- Modelled from the spec's words (refinement target for claim C6): the ten
synthetic feature values are concatenated raw (untransformed), passed
through the previously fitted MinMaxScaler, and the scaled values are
clipped to [0,1] after the transform, before concatenation with the TF-IDF
vector. -/
def extract_all_features_specClaim (log1p : ℚ → ℚ)
    (hostOf : String → Option String × Bool) (tldSuffix : String → String)
    (vectorize : String → List ℚ) (st : FEState) (parsed_email : FEParsedEmail)
    (translated_text : String) (url_analysis : FEUrlAnalysis) :
    Except PyErr FeatOut :=
  let q := extract_quantitative_features log1p hostOf parsed_email
  let s := extract_structural_features log1p parsed_email
  let b := extract_binary_indicators hostOf tldSuffix url_analysis parsed_email
  let lng := extract_linguistic_features log1p translated_text
  let synth := q.2 ++ s.2 ++ b ++ lng.2
  let synth := if st.is_scaler_fitted then
      (minmaxTransform st.scaler_scale st.scaler_min synth).map Aggregator.clamp01q
    else synth
  if st.is_fitted then
    let tfidf := vectorize translated_text
    .ok { tfidf_vector := tfidf
          feature_vector := tfidf ++ synth
          quantitative_raw := q.2
          structural_raw := s.2
          binary := b
          linguistic_raw := lng.2 }
  else
    .error (.valueError
      "Vectorizer must be fitted before vectorization. Call fit_vectorizer() first.")

/-- A fitted state whose scaler doubles the sixth synthetic feature: scaled
outputs can leave [0,1] because the transform is affine and unclipped. -/
def clipScalerState : FEState :=
  { is_fitted := true
    is_scaler_fitted := true
    scaler_scale := [1, 1, 1, 1, 1, 2, 1, 1, 1, 1]
    scaler_min := [0, 0, 0, 0, 0, 0, 0, 0, 0, 0] }

end FeatureExtractor

namespace EmailParser

/-- Character at index `n`. -/
def at? (l : List Char) (n : Nat) : Option Char := (l.drop n).head?

/-- The character class `[\w\.-]` of the email/Received regexes. -/
def isClassChar (c : Char) : Bool := isWordChar c || c = '.' || c = '-'

/-- Python whitespace (`\s`) on ASCII text. -/
def isSpaceChar (c : Char) : Bool :=
  c = ' ' || c = '\t' || c = '\n' || c = '\r' || c = Char.ofNat 11 || c = Char.ofNat 12

/-- Length of the leading digit run. -/
def digitRun (l : List Char) : Nat := (l.takeWhile Char.isDigit).length

/-- One `\d{1,3}\.` component of the IP regex at the head of `l`: greedy with
backtracking collapses to "digit run of 1..3 followed by a dot"; returns the
consumed length including the dot. -/
def ipComp (l : List Char) : Option Nat :=
  let r := digitRun l
  if 1 ≤ r && r ≤ 3 && at? l r = some '.' then some (r + 1) else none

/-- The final `\d{1,3}\b` component: digit run of 1..3 followed by a
non-word character or the end of the text. -/
def ipLastComp (l : List Char) : Option Nat :=
  let r := digitRun l
  if 1 ≤ r && r ≤ 3 &&
      (match at? l r with
        | some c => !isWordChar c
        | none => true) then some r
  else none

/-- Length of a `(?:\d{1,3}\.){3}\d{1,3}\b` match at the head of `l`. -/
def tryIp (l : List Char) : Option Nat := do
  let a ← ipComp l
  let b ← ipComp (l.drop a)
  let c ← ipComp (l.drop (a + b))
  let d ← ipLastComp (l.drop (a + b + c))
  pure (a + b + c + d)

/-- Non-overlapping left-to-right scan of
`re.findall(r'\b(?:\d{1,3}\.){3}\d{1,3}\b', s)`; `prev` carries the
character before the scan position for the leading `\b`. -/
def ipScan : Nat → Option Char → List Char → List String
  | 0, _, _ => []
  | _ + 1, _, [] => []
  | fuel + 1, prev, c :: rest =>
    let okL := match prev with
      | none => true
      | some p => !isWordChar p
    if okL then
      match tryIp (c :: rest) with
      | some n => (⟨(c :: rest).take n⟩ : String) ::
          ipScan fuel (at? (c :: rest) (n - 1)) ((c :: rest).drop n)
      | none => ipScan fuel (some c) rest
    else ipScan fuel (some c) rest

/-- `ip_pattern.findall(s)`. -/
def ip_findall (s : String) : List String := ipScan s.data.length none s.data

/-- `ip_pattern.search(s)` (the first match of the same scan). -/
def ip_search (s : String) : Option String := (ip_findall s).head?

/-- Largest `t` in `1..k` such that `l[t] = '.'` and `l[t+1]` is a word
character — the backtracking of `[\w\.-]+` before `\.\w+`. -/
def findDotT (l : List Char) : Nat → Option Nat
  | 0 => none
  | t + 1 =>
    if at? l (t + 1) = some '.' &&
        (match at? l (t + 2) with
          | some c => isWordChar c
          | none => false) then some (t + 1)
    else findDotT l t

/-- Length of a `([\w\.-]+\.\w+)` group match at the head of `l`: the class
run is consumed greedily, backtracked to the last dot followed by a word
character, then `\w+` takes the maximal word run. -/
def groupMatch (l : List Char) : Option Nat :=
  let S := (l.takeWhile isClassChar).length
  if S = 0 then none
  else
    match findDotT l (S - 1) with
    | none => none
    | some t =>
      let W := ((l.drop (t + 1)).takeWhile isWordChar).length
      some (t + 1 + W)

/-- Non-overlapping scan of `re.findall(r'[\w\.-]+@([\w\.-]+\.\w+)', s)`,
returning the captured group of each match. -/
def emailScan : Nat → List Char → List String
  | 0, _ => []
  | _ + 1, [] => []
  | fuel + 1, c :: rest =>
    let l := c :: rest
    let R := (l.takeWhile isClassChar).length
    if 1 ≤ R && at? l R = some '@' then
      match groupMatch (l.drop (R + 1)) with
      | some g => (⟨(l.drop (R + 1)).take g⟩ : String) ::
          emailScan fuel (l.drop (R + 1 + g))
      | none => emailScan fuel rest
    else emailScan fuel rest

/-- `email_pattern.findall(s)` with `email_pattern = r'[\w\.-]+@([\w\.-]+\.\w+)'`. -/
def email_findall (s : String) : List String := emailScan s.data.length s.data

/-- Non-overlapping scan of
`re.findall(r'from\s+([\w\.-]+\.\w+)', s, re.IGNORECASE)`. -/
def receivedScan : Nat → List Char → List String
  | 0, _ => []
  | _ + 1, [] => []
  | fuel + 1, c :: rest =>
    let l := c :: rest
    if pyLower ⟨l.take 4⟩ = "from" then
      let l4 := l.drop 4
      let W := (l4.takeWhile isSpaceChar).length
      if 1 ≤ W then
        match groupMatch (l4.drop W) with
        | some g => (⟨(l4.drop W).take g⟩ : String) ::
            receivedScan fuel ((l4.drop W).drop g)
        | none => receivedScan fuel rest
      else receivedScan fuel rest
    else receivedScan fuel rest

/-- `re.findall(r'from\s+([\w\.-]+\.\w+)', s, re.IGNORECASE)`. -/
def received_findall (s : String) : List String := receivedScan s.data.length s.data

/-- Lexicographic code-point comparison of character lists (Python `str <`). -/
def listLtChar : List Char → List Char → Bool
  | [], [] => false
  | [], _ :: _ => true
  | _ :: _, [] => false
  | a :: as, b :: bs =>
    if a.toNat < b.toNat then true
    else if b.toNat < a.toNat then false
    else listLtChar as bs

/-- Python `a < b` on strings. -/
def strLt (a b : String) : Bool := listLtChar a.data b.data

/-- Python `sorted` on strings (code-point lexicographic order); the
surrounding `set()` is modelled by `List.dedup` before sorting. -/
def insertStr (x : String) : List String → List String
  | [] => [x]
  | y :: ys => if strLt x y then x :: y :: ys else y :: insertStr x ys

/-- Insertion sort by the code-point order. -/
def pySortedStr : List String → List String
  | [] => []
  | x :: xs => insertStr x (pySortedStr xs)

/-- The header fields `extract_domains` reads from `extract_headers`' output
(`from`, `to`, `reply-to`, `return-path`, `cc`, `bcc`, and `received`, which
`extract_headers` stores as a single first value, wrapped into a one-element
list by `extract_domains` when truthy). -/
structure HeadersDict where
  from_ : String := ""
  to_ : String := ""
  reply_to : String := ""
  return_path : String := ""
  cc : String := ""
  bcc : String := ""
  received : Option String := none

/-- The dict returned by `extract_domains`. -/
structure DomainsResult where
  domains : List String
  ips : List String
  email_domains : List String
deriving Repr, DecidableEq

/-- `extract_domains` from `src/email_parser.py`.  `urls` is the result of
`extract_urls` (driven by the external URLExtract/BeautifulSoup libraries)
and `tldx` models `tldextract.extract`, giving `(domain, suffix)`; both are
explicit parameters.  Note the code quirk kept here: the URL branch tests
membership of the unlowered `domain` but appends the lowercased one. -/
def extract_domains (tldx : String → String × String) (urls : List String)
    (headers : HeadersDict) : DomainsResult :=
  let step1 := urls.foldl (fun (acc : List String × List String) url =>
    match ip_search url with
    | some ip => (acc.1, if acc.2.contains ip then acc.2 else acc.2 ++ [ip])
    | none =>
      let e := tldx url
      if e.1 ≠ "" && e.2 ≠ "" then
        let domain := e.1 ++ "." ++ e.2
        if acc.1.contains domain then acc else (acc.1 ++ [pyLower domain], acc.2)
      else acc) ([], [])
  let header_fields := [headers.from_, headers.to_, headers.reply_to,
    headers.return_path, headers.cc, headers.bcc]
  let step2 := header_fields.foldl (fun (acc : List String × List String) v =>
    if v = "" then acc
    else
      let eds := (email_findall v).foldl (fun eds ed =>
        let edl := pyLower ed
        if eds.contains edl then eds else eds ++ [edl]) acc.1
      let ips := (ip_findall v).foldl (fun ips ip =>
        if ips.contains ip then ips else ips ++ [ip]) acc.2
      (eds, ips)) ([], step1.2)
  let received_headers : List String :=
    match headers.received with
    | none => []
    | some s => if s = "" then [] else [s]
  let step3 := received_headers.foldl (fun (acc : List String × List String) r =>
    let doms := (received_findall r).foldl (fun doms d =>
      let dl := pyLower d
      if doms.contains dl then doms else doms ++ [dl]) acc.1
    let ips := (ip_findall r).foldl (fun ips ip =>
      if ips.contains ip then ips else ips ++ [ip]) acc.2
    (doms, ips)) (step1.1, step2.2)
  let valid_ips := step3.2.filter validOctets
  { domains := pySortedStr ((step3.1 ++ step2.1).dedup)
    ips := pySortedStr (valid_ips.dedup)
    email_domains := pySortedStr (step2.1.dedup) }

/-- A parsed email exercising the header branches of `extract_domains`: a
Reply-To at a `www.`-prefixed host and a Received line naming an IP. -/
def sampleHeaders : HeadersDict :=
  { reply_to := "user@www.evil.com"
    received := some "from 1.2.3.4 by mail.example.com" }

end EmailParser

namespace RulesEngine

/-- C2 counterexample: the claim maps risk score 70 to HIGH, but
`classify_risk_level 70` is MEDIUM (the code's HIGH branch needs score > 70). -/
theorem classify_risk_level_70_counterexample :
    classify_risk_level 70 = "MEDIUM" ∧ classify_risk_level 70 ≠ "HIGH" := by
  decide

/-- C2 (amended): `classify_risk_level` returns LOW iff the score is < 30,
MEDIUM iff 30 ≤ score ≤ 70, and HIGH iff score ≥ 71; in particular 29 ↦ LOW,
30 ↦ MEDIUM, 69 ↦ MEDIUM and 70 ↦ MEDIUM. -/
theorem classify_risk_level_mapping :
    (∀ n : Nat,
      (classify_risk_level n = "LOW" ↔ n < 30) ∧
      (classify_risk_level n = "MEDIUM" ↔ 30 ≤ n ∧ n ≤ 70) ∧
      (classify_risk_level n = "HIGH" ↔ 71 ≤ n)) ∧
    classify_risk_level 29 = "LOW" ∧ classify_risk_level 30 = "MEDIUM" ∧
    classify_risk_level 69 = "MEDIUM" ∧ classify_risk_level 70 = "MEDIUM" := by
  refine ⟨fun n => ?_, by decide, by decide, by decide, by decide⟩
  unfold classify_risk_level
  split_ifs with h1 h2 <;>
    refine ⟨⟨fun hh => ?_, fun hh => ?_⟩, ⟨fun hh => ?_, fun hh => ?_⟩,
      ⟨fun hh => ?_, fun hh => ?_⟩⟩ <;>
    first
      | rfl
      | omega
      | exact absurd hh (by decide)

/-- C1 counterexample: in the triple-fail plus Reply-To-mismatch scenario the
engine returns risk score 60 (authentication weight 40 = 15+15+10,
domain_mismatch weight 20) and level MEDIUM, not the claimed 90/HIGH. -/
theorem evaluate_triple_fail_counterexample :
    (evaluate_all_rules tripleFailHeader {} {} none).map
      (fun r => (r.risk_score, r.risk_level, r.triggered_rules)) =
      .ok (60, "MEDIUM", [⟨"authentication", 40⟩, ⟨"domain_mismatch", 20⟩]) ∧
    (evaluate_all_rules tripleFailHeader {} {} none).map
      (fun r => (r.risk_score, r.risk_level)) ≠ .ok (90, "HIGH") := by
  decide

/-- C1 (amended): when SPF, DKIM and DMARC all equal `fail` and the Reply-To
domain is non-empty and differs from the non-empty From domain, and no other
rule has input to fire on, `evaluate_all_rules` triggers `authentication`
with summed weight 40 (SPF 15 + DKIM 15 + DMARC 10) and `domain_mismatch`
with weight 20, so it returns risk_score 60 and risk_level MEDIUM. -/
theorem evaluate_triple_fail_replyto_mismatch
    (h : HeaderAnalysisDict) (u : UrlAnalysisDict) (p : ParsedEmailDict) (fd rt : String)
    (hspf : h.spf_result = some "fail") (hdkim : h.dkim_result = some "fail")
    (hdmarc : h.dmarc_result = some "fail")
    (hfd : h.from_domain = some fd) (hrt : h.reply_to_domain = some rt)
    (hfdne : fd ≠ "") (hrtne : rt ≠ "") (hne : fd ≠ rt)
    (hre : h.has_re_without_references.getD false = false)
    (hatt : p.attachments_metadata = [])
    (hu : u.url_analyses.getD {} = {}) :
    (evaluate_all_rules h u p none).map
      (fun r => (r.risk_score, r.risk_level, r.triggered_rules)) =
      .ok (60, "MEDIUM", [⟨"authentication", 40⟩, ⟨"domain_mismatch", 20⟩]) := by
  have hA : check_authentication h = ⟨true, 40, "SPF fail; DKIM fail; DMARC fail"⟩ := by
    simp only [check_authentication, hspf, hdkim, hdmarc]
    decide
  have hDf : (check_domain_mismatch h).triggered = true ∧ (check_domain_mismatch h).score = 20 := by
    simp [check_domain_mismatch, hfd, hrt, hfdne, hrtne, hne, RULE_WEIGHTS]
  have hD : check_domain_mismatch h = ⟨true, 20, (check_domain_mismatch h).details⟩ := by
    obtain ⟨h1, h2⟩ := hDf
    cases hcd : check_domain_mismatch h
    rw [hcd] at h1 h2
    simp_all
  have hR : check_reply_anomaly h = ⟨false, 0, "No reply anomaly detected"⟩ := by
    simp only [check_reply_anomaly, hre]
    decide
  have hT : check_threat_intelligence p.urls p.domains p.ips none =
      .ok ⟨false, 0, "TI module not available"⟩ := rfl
  have hDA : check_dangerous_attachments p.attachments_metadata =
      ⟨false, 0, "No attachments found"⟩ := by
    rw [hatt]
    decide
  have hUC : check_url_characteristics u = ⟨false, 0, "No suspicious URL characteristics"⟩ := by
    simp only [check_url_characteristics, hu]
    decide
  unfold evaluate_all_rules
  rw [hA, hD, hR, hDA, hUC, hT]
  simp [Except.map, bind, Except.bind, calculate_risk_score, classify_risk_level]

/-- Witness for the amended C1 theorem at the concrete scenario-2 facts. -/
theorem evaluate_triple_fail_replyto_mismatch_witness :
    (evaluate_all_rules tripleFailHeader {} {} none).map
      (fun r => (r.risk_score, r.risk_level, r.triggered_rules)) =
      .ok (60, "MEDIUM", [⟨"authentication", 40⟩, ⟨"domain_mismatch", 20⟩]) :=
  evaluate_triple_fail_replyto_mismatch tripleFailHeader {} {} "sberbank.ru" "evil-domain.tk"
    rfl rfl rfl rfl rfl (by decide) (by decide) (by decide) rfl rfl rfl

end RulesEngine

namespace UpdateThreatIntel

open ThreatIntel

theorem insertOrIgnore_key_mem (rows : List DBRow) (r : DBRow) :
    r.key ∈ (insertOrIgnore rows r).map (·.key) := by
  unfold insertOrIgnore
  split
  · next h =>
    rcases List.any_eq_true.mp h with ⟨x, hx, hk⟩
    exact List.mem_map.mpr ⟨x, hx, of_decide_eq_true hk⟩
  · simp

theorem insertOrIgnore_key_mono (rows : List DBRow) (r : DBRow) (k : String)
    (h : k ∈ rows.map (·.key)) : k ∈ (insertOrIgnore rows r).map (·.key) := by
  unfold insertOrIgnore
  split
  · exact h
  · simp only [List.map_append]
    exact List.mem_append_left _ h

theorem insertOrIgnore_eq_of_mem (rows : List DBRow) (r : DBRow)
    (h : r.key ∈ rows.map (·.key)) : insertOrIgnore rows r = rows := by
  rcases List.mem_map.mp h with ⟨x, hx, hk⟩
  unfold insertOrIgnore
  rw [if_pos (List.any_eq_true.mpr ⟨x, hx, decide_eq_true hk⟩)]

section FoldInsert

variable {α σ : Type} (apply : σ → α → σ) (memP : α → σ → Prop)

theorem foldl_pres (hmono : ∀ s a b, memP a s → memP a (apply s b)) :
    ∀ (rows : List α) (s : σ) (a : α), memP a s → memP a (rows.foldl apply s) := by
  intro rows
  induction rows with
  | nil => intro s a h; simpa using h
  | cons x xs ih =>
    intro s a h
    simpa using ih (apply s x) a (hmono s a x h)

theorem foldl_mem (hmem : ∀ s a, memP a (apply s a))
    (hmono : ∀ s a b, memP a s → memP a (apply s b)) :
    ∀ (rows : List α) (s : σ) (a : α), a ∈ rows → memP a (rows.foldl apply s) := by
  intro rows
  induction rows with
  | nil => intro s a h; cases h
  | cons x xs ih =>
    intro s a h
    rcases List.mem_cons.mp h with h | h
    · subst h
      simpa using foldl_pres apply memP hmono xs (apply s a) a (hmem s a)
    · simpa using ih (apply s x) a h

theorem foldl_insert_idem (hmem : ∀ s a, memP a (apply s a))
    (hmono : ∀ s a b, memP a s → memP a (apply s b))
    (hskip : ∀ s a, memP a s → apply s a = s)
    (rows : List α) (s : σ) :
    rows.foldl apply (rows.foldl apply s) = rows.foldl apply s := by
  have hAll : ∀ t : σ, (∀ a ∈ rows, memP a t) → rows.foldl apply t = t := by
    induction rows with
    | nil => intro t _; rfl
    | cons x xs ih =>
      intro t ht
      simp only [List.foldl_cons]
      rw [hskip t x (ht x (by simp))]
      exact ih t (fun a ha => ht a (by simp [ha]))
  exact hAll _ (fun a ha => foldl_mem apply memP hmem hmono rows s a ha)

end FoldInsert

/-- Membership predicate for a processed URLhaus row: its key is already in
the targeted table. -/
def urlhausKeyMem (r : FeedKind × String × String) (db : TIDB) : Prop :=
  match r.1 with
  | .ip => r.2.1 ∈ db.malicious_ips.map (·.key)
  | .domain => r.2.1 ∈ db.malicious_domains.map (·.key)

theorem applyUrlhausRow_mem (date : String) (db : TIDB) (r : FeedKind × String × String) :
    urlhausKeyMem r (applyUrlhausRow date db r) := by
  rcases r with ⟨k, key, threat⟩
  cases k <;> simpa [urlhausKeyMem, applyUrlhausRow] using insertOrIgnore_key_mem _ _

theorem applyUrlhausRow_mono (date : String) (db : TIDB)
    (r b : FeedKind × String × String) (h : urlhausKeyMem r db) :
    urlhausKeyMem r (applyUrlhausRow date db b) := by
  rcases r with ⟨k, key, threat⟩
  rcases b with ⟨kb, keyb, threatb⟩
  cases k <;> cases kb <;>
    first
      | exact insertOrIgnore_key_mono _ _ _ h
      | exact h

theorem applyUrlhausRow_skip (date : String) (db : TIDB)
    (r : FeedKind × String × String) (h : urlhausKeyMem r db) :
    applyUrlhausRow date db r = db := by
  rcases r with ⟨k, key, threat⟩
  cases k with
  | domain =>
    show ({ db with malicious_domains :=
      insertOrIgnore db.malicious_domains ⟨key, threat, date, "URLhaus"⟩ } : TIDB) = db
    rw [insertOrIgnore_eq_of_mem db.malicious_domains ⟨key, threat, date, "URLhaus"⟩ h]
  | ip =>
    show ({ db with malicious_ips :=
      insertOrIgnore db.malicious_ips ⟨key, threat, date, "URLhaus"⟩ } : TIDB) = db
    rw [insertOrIgnore_eq_of_mem db.malicious_ips ⟨key, threat, date, "URLhaus"⟩ h]

/-- Membership predicate for a processed OpenPhish line. -/
def openphishKeyMem (d : String) (db : TIDB) : Prop :=
  d ∈ db.malicious_domains.map (·.key)

theorem applyOpenphishRow_mem (date : String) (db : TIDB) (d : String) :
    openphishKeyMem d (applyOpenphishRow date db d) :=
  insertOrIgnore_key_mem _ _

theorem applyOpenphishRow_mono (date : String) (db : TIDB) (d b : String)
    (h : openphishKeyMem d db) : openphishKeyMem d (applyOpenphishRow date db b) :=
  insertOrIgnore_key_mono _ _ _ h

theorem applyOpenphishRow_skip (date : String) (db : TIDB) (d : String)
    (h : openphishKeyMem d db) : applyOpenphishRow date db d = db := by
  show ({ db with malicious_domains :=
    insertOrIgnore db.malicious_domains ⟨d, "phishing", date, "OpenPhish"⟩ } : TIDB) = db
  rw [insertOrIgnore_eq_of_mem db.malicious_domains ⟨d, "phishing", date, "OpenPhish"⟩ h]

/-- C8: feed import is idempotent — a second run of `update_from_urlhaus` or
`update_from_openphish` on the same feed lines leaves the row counts of
`malicious_domains` and `malicious_ips` unchanged, because inserts are
INSERT OR IGNORE against the UNIQUE key. -/
theorem feed_import_idempotent (date : String) (lines : List String) (s : TIState)
    (procU : String → Option (FeedKind × String × String)) (procO : String → Option String) :
    ((update_from_urlhaus procU date lines
        (update_from_urlhaus procU date lines s)).db.malicious_domains.length =
      (update_from_urlhaus procU date lines s).db.malicious_domains.length ∧
     (update_from_urlhaus procU date lines
        (update_from_urlhaus procU date lines s)).db.malicious_ips.length =
      (update_from_urlhaus procU date lines s).db.malicious_ips.length) ∧
    ((update_from_openphish procO date lines
        (update_from_openphish procO date lines s)).db.malicious_domains.length =
      (update_from_openphish procO date lines s).db.malicious_domains.length ∧
     (update_from_openphish procO date lines
        (update_from_openphish procO date lines s)).db.malicious_ips.length =
      (update_from_openphish procO date lines s).db.malicious_ips.length) := by
  constructor
  · simp only [update_from_urlhaus]
    split
    · exact ⟨rfl, rfl⟩
    · exact
        ⟨congrArg (fun db => db.malicious_domains.length)
          (foldl_insert_idem (applyUrlhausRow date) urlhausKeyMem
            (applyUrlhausRow_mem date) (applyUrlhausRow_mono date) (applyUrlhausRow_skip date) _ _),
         congrArg (fun db => db.malicious_ips.length)
          (foldl_insert_idem (applyUrlhausRow date) urlhausKeyMem
            (applyUrlhausRow_mem date) (applyUrlhausRow_mono date) (applyUrlhausRow_skip date) _ _)⟩
  · exact
      ⟨congrArg (fun db => db.malicious_domains.length)
        (foldl_insert_idem (applyOpenphishRow date) openphishKeyMem
          (applyOpenphishRow_mem date) (applyOpenphishRow_mono date) (applyOpenphishRow_skip date) _ _),
       congrArg (fun db => db.malicious_ips.length)
        (foldl_insert_idem (applyOpenphishRow date) openphishKeyMem
          (applyOpenphishRow_mem date) (applyOpenphishRow_mono date) (applyOpenphishRow_skip date) _ _)⟩

theorem find?_isSome_of_mem {α : Type} (l : List α) (p : α → Bool) (x : α)
    (hx : x ∈ l) (hp : p x = true) : ∃ y, l.find? p = some y := by
  induction l with
  | nil => cases hx
  | cons a t ih =>
    cases hpa : p a with
    | true => exact ⟨a, by simp [List.find?, hpa]⟩
    | false =>
      rcases List.mem_cons.mp hx with rfl | hx'
      · rw [hp] at hpa; cases hpa
      · rcases ih hx' with ⟨y, hy⟩
        exact ⟨y, by simp [List.find?, hpa, hy]⟩

/-- `check_reputation` on an instance with an empty cache reports an IP that
has a row in `malicious_ips`. -/
theorem check_reputation_finds_db_ip (tldx : String → Option String) (s : TIState)
    (ip : String) (row : DBRow) (hip : ip ≠ "") (hc : s.cache = [])
    (hfind : s.db.malicious_ips.find? (fun r => r.key = ip) = some row) :
    (ThreatIntel.check_reputation tldx s [] [ip]).1.ip_in_blacklist = true ∧
    (ThreatIntel.check_reputation tldx s [] [ip]).1.malicious_ips = [ip] := by
  simp only [ThreatIntel.check_reputation, ThreatIntel.check_domains_batch,
    ThreatIntel.check_ip_reputation, ThreatIntel.cacheGet, hc, hip, hfind,
    List.isEmpty_nil, if_true, List.foldl, List.find?_nil, Option.map_none,
    ne_eq, not_false_iff, if_neg, if_false]
  simp [hip, hfind]

/-- `check_reputation` on a batch query for a domain `d` normalising to `dkey`
reports `d` malicious whenever `malicious_domains` holds a row keyed `dkey`
(the batch path queries the database directly; the cache is only written). -/
theorem check_reputation_finds_db_domain (tldx : String → Option String) (s : TIState)
    (d dkey : String) (hd : d ≠ "") (hk : dkey ≠ "")
    (htl : tldx d = some dkey)
    (hmem : dkey ∈ s.db.malicious_domains.map (·.key)) :
    (ThreatIntel.check_reputation tldx s [d] []).1.malicious_domains = [d] := by
  rcases List.mem_map.mp hmem with ⟨row, hrow, hkey⟩
  have hmemf : row ∈ s.db.malicious_domains.filter
      (fun r => [(d, dkey)].any (fun p => p.2 = r.key)) := by
    refine List.mem_filter.mpr ⟨hrow, ?_⟩
    simp [hkey]
  rcases find?_isSome_of_mem _ (fun r => r.key = dkey) row hmemf (decide_eq_true hkey)
    with ⟨row0, hfind⟩
  simp only [ThreatIntel.check_reputation, ThreatIntel.check_domains_batch,
    List.foldl_nil, List.filterMap_cons, List.filterMap_nil, hd, htl,
    Option.getD_some, hk, ne_eq, not_false_iff, if_neg, List.isEmpty_cons,
    Bool.false_eq_true, if_false, List.foldl_cons]
  rw [hfind]
  simp

/-- C9: after either feed ingestion — `update_from_urlhaus` with an IP or a
domain indicator, or `update_from_openphish` with a domain — the in-memory
cache is empty (cleared after the commit), and a subsequent
`check_reputation` on the inserted indicator reports it malicious: never a
stale negative cached result. -/
theorem feed_update_no_stale_negative
    (tldx : String → Option String)
    (procU : String → Option (FeedKind × String × String)) (procO : String → Option String)
    (date : String) (lines linesO : List String) (s sO : TIState) :
    (∀ ip threat, ip ≠ "" →
      (FeedKind.ip, ip, threat) ∈
        (lines.filter (fun l => pyStrip l ≠ "" && !strStartsWith (pyStrip l) "#")).filterMap procU →
      (update_from_urlhaus procU date lines s).cache = [] ∧
      (ThreatIntel.check_reputation tldx (update_from_urlhaus procU date lines s)
        [] [ip]).1.ip_in_blacklist = true ∧
      (ThreatIntel.check_reputation tldx (update_from_urlhaus procU date lines s)
        [] [ip]).1.malicious_ips = [ip]) ∧
    (∀ dkey threat d, dkey ≠ "" → d ≠ "" → tldx d = some dkey →
      (FeedKind.domain, dkey, threat) ∈
        (lines.filter (fun l => pyStrip l ≠ "" && !strStartsWith (pyStrip l) "#")).filterMap procU →
      (update_from_urlhaus procU date lines s).cache = [] ∧
      (ThreatIntel.check_reputation tldx (update_from_urlhaus procU date lines s)
        [d] []).1.malicious_domains = [d]) ∧
    (∀ dkey d, dkey ≠ "" → d ≠ "" → tldx d = some dkey →
      dkey ∈ linesO.filterMap (fun l =>
        let url := pyStrip l
        if url = "" then none else procO url) →
      (update_from_openphish procO date linesO sO).cache = [] ∧
      (ThreatIntel.check_reputation tldx (update_from_openphish procO date linesO sO)
        [d] []).1.malicious_domains = [d]) := by
  refine ⟨?_, ?_, ?_⟩
  · intro ip threat hip hmem
    have hne : ¬((lines.filter
        (fun l => pyStrip l ≠ "" && !strStartsWith (pyStrip l) "#")).isEmpty = true) := by
      intro hE
      rw [List.isEmpty_iff] at hE
      rw [hE] at hmem
      cases hmem
    have hupd : update_from_urlhaus procU date lines s =
        { s with
          db := ((lines.filter (fun l => pyStrip l ≠ "" && !strStartsWith (pyStrip l) "#")
            ).filterMap procU).foldl (applyUrlhausRow date) s.db
          cache := [] } := by
      unfold update_from_urlhaus
      rw [if_neg hne]
    have hkey : ip ∈ (((lines.filter (fun l => pyStrip l ≠ "" && !strStartsWith (pyStrip l) "#")
        ).filterMap procU).foldl (applyUrlhausRow date) s.db).malicious_ips.map (·.key) :=
      foldl_mem (applyUrlhausRow date) urlhausKeyMem (applyUrlhausRow_mem date)
        (applyUrlhausRow_mono date) _ s.db _ hmem
    rcases List.mem_map.mp hkey with ⟨x, hx, hkk⟩
    rcases find?_isSome_of_mem _ (fun r => r.key = ip) x hx (decide_eq_true hkk) with ⟨row, hfind⟩
    rw [hupd]
    exact ⟨rfl, check_reputation_finds_db_ip tldx _ ip row hip rfl hfind⟩
  · intro dkey threat d hk hd htl hmem
    have hne : ¬((lines.filter
        (fun l => pyStrip l ≠ "" && !strStartsWith (pyStrip l) "#")).isEmpty = true) := by
      intro hE
      rw [List.isEmpty_iff] at hE
      rw [hE] at hmem
      cases hmem
    have hupd : update_from_urlhaus procU date lines s =
        { s with
          db := ((lines.filter (fun l => pyStrip l ≠ "" && !strStartsWith (pyStrip l) "#")
            ).filterMap procU).foldl (applyUrlhausRow date) s.db
          cache := [] } := by
      unfold update_from_urlhaus
      rw [if_neg hne]
    have hkey : dkey ∈ (((lines.filter
        (fun l => pyStrip l ≠ "" && !strStartsWith (pyStrip l) "#")
        ).filterMap procU).foldl (applyUrlhausRow date) s.db).malicious_domains.map (·.key) :=
      foldl_mem (applyUrlhausRow date) urlhausKeyMem (applyUrlhausRow_mem date)
        (applyUrlhausRow_mono date) _ s.db _ hmem
    rw [hupd]
    exact ⟨rfl, check_reputation_finds_db_domain tldx _ d dkey hd hk htl hkey⟩
  · intro dkey d hk hd htl hmem
    have hkey : dkey ∈ ((linesO.filterMap (fun l =>
        let url := pyStrip l
        if url = "" then none else procO url)).foldl (applyOpenphishRow date)
          sO.db).malicious_domains.map (·.key) :=
      foldl_mem (applyOpenphishRow date) openphishKeyMem (applyOpenphishRow_mem date)
        (applyOpenphishRow_mono date) _ sO.db _ hmem
    exact ⟨rfl, check_reputation_finds_db_domain tldx _ d dkey hd hk htl hkey⟩

/-- Witness for the C9 theorem: a URLhaus feed inserting the IP `7.7.7.7`
and the domain `evil.tk`, and an OpenPhish feed inserting `phish.tk`, each
run on a state whose cache holds a stale negative entry for that very
indicator; afterwards the caches are empty and every indicator is reported
malicious. -/
theorem feed_update_no_stale_negative_witness :
    ((update_from_urlhaus witnessProcU "2026-10-12"
        ["http://7.7.7.7/x", "http://evil.tk/x"] witnessStateU).cache = [] ∧
      (ThreatIntel.check_reputation witnessTldx
        (update_from_urlhaus witnessProcU "2026-10-12"
          ["http://7.7.7.7/x", "http://evil.tk/x"] witnessStateU)
        [] ["7.7.7.7"]).1.ip_in_blacklist = true ∧
      (ThreatIntel.check_reputation witnessTldx
        (update_from_urlhaus witnessProcU "2026-10-12"
          ["http://7.7.7.7/x", "http://evil.tk/x"] witnessStateU)
        [] ["7.7.7.7"]).1.malicious_ips = ["7.7.7.7"]) ∧
    (ThreatIntel.check_reputation witnessTldx
      (update_from_urlhaus witnessProcU "2026-10-12"
        ["http://7.7.7.7/x", "http://evil.tk/x"] witnessStateU)
      ["evil.tk"] []).1.malicious_domains = ["evil.tk"] ∧
    ((update_from_openphish witnessProcO "2026-10-12"
        ["http://phish.tk/login"] witnessStateO).cache = [] ∧
      (ThreatIntel.check_reputation witnessTldx
        (update_from_openphish witnessProcO "2026-10-12"
          ["http://phish.tk/login"] witnessStateO)
        ["phish.tk"] []).1.malicious_domains = ["phish.tk"]) := by
  have h := feed_update_no_stale_negative witnessTldx witnessProcU witnessProcO
    "2026-10-12" ["http://7.7.7.7/x", "http://evil.tk/x"] ["http://phish.tk/login"]
    witnessStateU witnessStateO
  refine ⟨h.1 "7.7.7.7" "malware" (by decide) (by decide), ?_, ?_⟩
  · exact (h.2.1 "evil.tk" "malware_download" "evil.tk" (by decide) (by decide)
      (by decide) (by decide)).2
  · exact ⟨(h.2.2 "phish.tk" "phish.tk" (by decide) (by decide) (by decide) (by decide)).1,
      (h.2.2 "phish.tk" "phish.tk" (by decide) (by decide) (by decide) (by decide)).2⟩

end UpdateThreatIntel

/-- C3: the spec says rule evaluation never raises, but
`check_threat_intelligence` calls `ti_module.check_url_reputation`, a method
`ThreatIntelligence` does not define; with a TI instance and one extracted
URL `evaluate_all_rules` raises `AttributeError`, while the same instance
with no URLs / domains / IPs / attachments yields a non-raising result with
risk score 0. -/
theorem evaluate_all_rules_missing_method :
    RulesEngine.evaluate_all_rules {} {} { urls := ["http://sberbank-secure.tk/verify"] }
        (some (ThreatIntel.asModule (fun _ => none) {})) =
      .error (.attributeError "check_url_reputation") ∧
    ∃ r, RulesEngine.evaluate_all_rules {} {} {}
        (some (ThreatIntel.asModule (fun _ => none) {})) = .ok r ∧ r.risk_score = 0 :=
  ⟨rfl, ⟨_, rfl, rfl⟩⟩

namespace Aggregator

theorem clamp01_fin (q : ℚ) : _clamp01 (.fin q) = .fin (clamp01q q) := by
  unfold _clamp01 clamp01q
  simp only [PF.lt, PF.gt, decide_eq_true_eq]
  split_ifs with h1 h2
  · rw [min_eq_right (le_of_lt (lt_trans h1 zero_lt_one)), max_eq_left (le_of_lt h1)]
  · rw [min_eq_left (le_of_lt h2), max_eq_right zero_le_one]
  · rw [min_eq_right (not_lt.mp h2), max_eq_right (not_lt.mp h1)]

theorem clamp01_nan : _clamp01 .nan = .nan := rfl

theorem mul_fin_nan (a : ℚ) : PF.mul (.fin a) .nan = .nan := rfl

theorem mul_fin_fin (a b : ℚ) : PF.mul (.fin a) (.fin b) = .fin (a * b) := rfl

theorem add_nan (y : PF) : PF.add .nan y = .nan := by cases y <;> rfl

theorem div100_fin (a : ℚ) : (PF.fin a).div100 = .fin (a / 100) := rfl

theorem clamp01_mem01 (x : PF) (h : x ≠ .nan) :
    ∃ q, _clamp01 x = .fin q ∧ 0 ≤ q ∧ q ≤ 1 := by
  cases x with
  | nan => exact absurd rfl h
  | inf => exact ⟨1, rfl, zero_le_one, le_refl 1⟩
  | ninf => exact ⟨0, rfl, le_refl 0, zero_le_one⟩
  | fin q =>
    exact ⟨clamp01q q, clamp01_fin q, le_max_left 0 _,
      max_le zero_le_one (min_le_left 1 q)⟩

/-- C7 counterexample: a NaN `phishing_probability` passes through `_clamp01`
unclamped and propagates, so `final_score` is NaN and does not lie in [0,1]. -/
theorem aggregate_scores_nan_counterexample :
    (aggregate_scores { phishing_probability := some .nan } {} {}).final_score = .nan ∧
    PF.mem01 (aggregate_scores { phishing_probability := some .nan } {} {}).final_score
      = false := by
  have hfin : (aggregate_scores { phishing_probability := some .nan } {} {}).final_score
      = .nan := by
    unfold aggregate_scores _extract_ml_confidence _normalize_risk_score
    simp only [Option.getD, clamp01_nan, div100_fin, clamp01_fin, mul_fin_nan,
      mul_fin_fin, add_nan]
  exact ⟨hfin, by rw [hfin]; rfl⟩

/-- C7 (amended): `aggregate_scores` never fails and clamps infinite inputs,
so whenever none of `phishing_probability`, `confidence` and `risk_score` is
NaN the returned `final_score` lies in [0,1]; a NaN input, however,
propagates to a NaN `final_score`. -/
theorem aggregate_scores_final_in01
    (ml : MLResultDict) (rules : RulesResultDict)
    (h1 : ml.phishing_probability ≠ some .nan)
    (h2 : ml.confidence ≠ some .nan)
    (h3 : rules.risk_score ≠ some .nan) :
    PF.mem01 (aggregate_scores ml rules {}).final_score = true := by
  have hmc : ∃ q, _extract_ml_confidence ml = .fin q ∧ 0 ≤ q ∧ q ≤ 1 := by
    unfold _extract_ml_confidence
    cases hpp : ml.phishing_probability with
    | some v => exact clamp01_mem01 v (fun hv => h1 (hv ▸ hpp))
    | none =>
      cases hc : ml.confidence with
      | some w =>
        simpa using clamp01_mem01 w (fun hw => h2 (hw ▸ hc))
      | none => exact clamp01_mem01 (.fin 0) (by simp)
  have hrn : ∃ q, _normalize_risk_score (rules.risk_score.getD (.fin 0)) = .fin q ∧
      0 ≤ q ∧ q ≤ 1 := by
    unfold _normalize_risk_score
    cases hrs : rules.risk_score with
    | some v =>
      refine clamp01_mem01 v.div100 ?_
      cases v with
      | nan => exact absurd hrs h3
      | inf => simp [PF.div100]
      | ninf => simp [PF.div100]
      | fin q => simp [PF.div100]
    | none => exact clamp01_mem01 ((PF.fin 0).div100) (by simp [PF.div100])
  obtain ⟨a, ha, _, _⟩ := hmc
  obtain ⟨b, hb, _, _⟩ := hrn
  unfold aggregate_scores
  simp only [ha, hb, PF.mul, PF.add, clamp01_fin, PF.mem01, clamp01q]
  simp [le_max_left, max_le zero_le_one (min_le_left 1 _)]

/-- Witness for the amended C7 theorem: infinite inputs are clamped and the
final score lies in [0,1]. -/
theorem aggregate_scores_final_in01_witness :
    PF.mem01 (aggregate_scores { phishing_probability := some .inf }
      { risk_score := some .ninf } {}).final_score = true :=
  aggregate_scores_final_in01 { phishing_probability := some .inf }
    { risk_score := some .ninf } (by decide) (by decide) (by decide)

/-- C4: with the default weights (w_ml 0.7, w_rules 0.3, threshold 0.5),
`aggregate_scores` computes
`final_score = clamp01(0.7·clamp01(p) + 0.3·clamp01(r/100))` and `decide`
returns 1 iff the final score reaches the threshold; in particular
p = 0.49 with r = 0 gives 0.343 and verdict 0, and p = 0.49 with r = 100
gives 0.643 and verdict 1. -/
theorem aggregate_default_formula :
    (∀ (ml : MLResultDict) (rules : RulesResultDict) (p r : ℚ),
      ml.phishing_probability = some (.fin p) →
      rules.risk_score = some (.fin r) →
      (aggregate_scores ml rules {}).final_score =
        .fin (clamp01q (7/10 * clamp01q p + 3/10 * clamp01q (r / 100))) ∧
      decide (aggregate_scores ml rules {}).final_score
          (aggregate_scores ml rules {}).threshold =
        (if 1/2 ≤ clamp01q (7/10 * clamp01q p + 3/10 * clamp01q (r / 100))
          then 1 else 0)) ∧
    (aggregate_scores { phishing_probability := some (.fin (49/100)) }
        { risk_score := some (.fin 0) } {}).final_score = .fin (343/1000) ∧
    decide (aggregate_scores { phishing_probability := some (.fin (49/100)) }
        { risk_score := some (.fin 0) } {}).final_score (.fin (1/2)) = 0 ∧
    (aggregate_scores { phishing_probability := some (.fin (49/100)) }
        { risk_score := some (.fin 100) } {}).final_score = .fin (643/1000) ∧
    decide (aggregate_scores { phishing_probability := some (.fin (49/100)) }
        { risk_score := some (.fin 100) } {}).final_score (.fin (1/2)) = 1 := by
  have key : ∀ (ml : MLResultDict) (rules : RulesResultDict) (p r : ℚ),
      ml.phishing_probability = some (.fin p) →
      rules.risk_score = some (.fin r) →
      (aggregate_scores ml rules {}).final_score =
        .fin (clamp01q (7/10 * clamp01q p + 3/10 * clamp01q (r / 100))) ∧
      decide (aggregate_scores ml rules {}).final_score
          (aggregate_scores ml rules {}).threshold =
        (if 1/2 ≤ clamp01q (7/10 * clamp01q p + 3/10 * clamp01q (r / 100))
          then 1 else 0) := by
    intro ml rules p r hp hr
    have hfin : (aggregate_scores ml rules {}).final_score =
        .fin (clamp01q (7/10 * clamp01q p + 3/10 * clamp01q (r / 100))) := by
      unfold aggregate_scores _extract_ml_confidence _normalize_risk_score
      simp only [hp, hr, Option.getD, PF.div100, clamp01_fin, PF.mul, PF.add]
    have hth : (aggregate_scores ml rules {}).threshold = .fin (1/2) := rfl
    refine ⟨hfin, ?_⟩
    rw [Aggregator.decide, hfin, hth]
    simp only [PF.ge, decide_eq_true_eq]
  have e1 : clamp01q (7/10 * clamp01q (49/100) + 3/10 * clamp01q ((0:ℚ) / 100)) =
      343/1000 := by
    unfold clamp01q
    rw [min_eq_right (by norm_num), max_eq_right (by norm_num)]
    rw [min_eq_right (by norm_num), max_eq_right (by norm_num)]
    norm_num
  have e2 : clamp01q (7/10 * clamp01q (49/100) + 3/10 * clamp01q ((100:ℚ) / 100)) =
      643/1000 := by
    unfold clamp01q
    rw [min_eq_right (by norm_num), max_eq_right (by norm_num)]
    rw [show ((100:ℚ)/100) = 1 by norm_num, min_eq_left le_rfl, max_eq_right (by norm_num)]
    norm_num
  have k1 := key { phishing_probability := some (.fin (49/100)) }
    { risk_score := some (.fin 0) } (49/100) 0 rfl rfl
  have k2 := key { phishing_probability := some (.fin (49/100)) }
    { risk_score := some (.fin 100) } (49/100) 100 rfl rfl
  have hth1 : (aggregate_scores { phishing_probability := some (.fin (49/100)) }
      { risk_score := some (.fin 0) } {}).threshold = .fin (1/2) := rfl
  have hth2 : (aggregate_scores { phishing_probability := some (.fin (49/100)) }
      { risk_score := some (.fin 100) } {}).threshold = .fin (1/2) := rfl
  have d1 := k1.2
  rw [hth1] at d1
  have d2 := k2.2
  rw [hth2] at d2
  refine ⟨key, ?_, ?_, ?_, ?_⟩
  · rw [k1.1, e1]
  · rw [d1, e1]
    norm_num
  · rw [k2.1, e2]
  · rw [d2, e2]
    norm_num

/-- Witness for the C4 theorem's universally quantified part at the
boundary inputs p = 0.49, r = 100. -/
theorem aggregate_default_formula_witness :
    (aggregate_scores { phishing_probability := some (.fin (49/100)) }
      { risk_score := some (.fin 100) } {}).final_score =
      .fin (clamp01q (7/10 * clamp01q (49/100) + 3/10 * clamp01q ((100:ℚ) / 100))) :=
  (aggregate_default_formula.1 { phishing_probability := some (.fin (49/100)) }
    { risk_score := some (.fin 100) } (49/100) 100 rfl rfl).1

end Aggregator

namespace MLClassifier

/-- C10: when the loaded model has `predict` but neither `predict_proba` nor
`decision_function`, `_predict_phishing_probability` falls back to zeros, so
`classify_feature_vector` reports `phishing_probability = 0.0` for every
feature vector; and whenever such a model predicts class 1, the returned
confidence is that same 0.0. -/
theorem fallback_probability_zero (sigmoid : ℚ → ℚ) (m : PyModel)
    (fv : List ℚ) (r : ClassifyResult)
    (hpp : m.predict_proba = none) (hdf : m.decision_function = none)
    (hok : classify_feature_vector sigmoid (some m) fv = .ok r) :
    r.phishing_probability = 0 ∧ (r.prediction = 1 → r.confidence = 0) := by
  unfold classify_feature_vector at hok
  simp only [] at hok
  cases hpred : (m.predict [fv]).head? with
  | none => rw [hpred] at hok; cases hok
  | some pred =>
    rw [hpred] at hok
    have hzero : _predict_phishing_probability sigmoid m [fv] = [0] := by
      unfold _predict_phishing_probability
      rw [hpp, hdf]
      rfl
    rw [hzero] at hok
    simp only [List.head?] at hok
    cases hok
    refine ⟨rfl, fun h1 => ?_⟩
    have hp1 : pred = 1 := h1
    show (if pred = 1 then (0:ℚ) else 1 - 0) = 0
    rw [if_pos hp1]

/-- Witness for the C10 theorem: a predict-only model that predicts class 1
yields probability 0 and confidence 0. -/
theorem fallback_probability_zero_witness :
    (⟨1, 0, 0, "phishing"⟩ : ClassifyResult).phishing_probability = 0 ∧
    ((⟨1, 0, 0, "phishing"⟩ : ClassifyResult).prediction = 1 →
      (⟨1, 0, 0, "phishing"⟩ : ClassifyResult).confidence = 0) :=
  fallback_probability_zero (fun q => q) { predict := fun X => X.map (fun _ => 1) }
    [0] ⟨1, 0, 0, "phishing"⟩ rfl rfl rfl

end MLClassifier

namespace FeatureExtractor

/-- C6 counterexample: on an empty email whose `url_analysis` carries
`has_url_shortener = True` (every `np.log1p` application is at 0, where
`log1p 0 = 0` exactly, so `log1p` is instantiated with the identity), with a
fitted scaler that doubles the sixth feature, the code produces a synthetic
component 2 — the scaled values are not clipped to [0,1] after the
transform, while the claim's reading would clip it to 1. -/
theorem extract_all_features_clip_counterexample :
    (extract_all_features (fun q => q) (fun _ => (none, false)) (fun _ => "")
      (fun _ => []) clipScalerState {} "" { has_url_shortener := true }).map
        (fun r => r.feature_vector) = .ok [0, 0, 0, 0, 0, 2, 0, 0, 0, 0] ∧
    (extract_all_features_specClaim (fun q => q) (fun _ => (none, false)) (fun _ => "")
      (fun _ => []) clipScalerState {} "" { has_url_shortener := true }).map
        (fun r => r.feature_vector) = .ok [0, 0, 0, 0, 0, 1, 0, 0, 0, 0] ∧
    ¬((2 : ℚ) ≤ 1) := by
  refine ⟨?_, ?_, by norm_num⟩ <;>
  · simp only [extract_all_features, extract_all_features_specClaim,
      extract_quantitative_features, extract_structural_features,
      extract_binary_indicators, extract_linguistic_features,
      _extract_ips_from_urls, _extract_domains_from_urls, minmaxTransform,
      clipScalerState, Except.map, Aggregator.clamp01q]
    norm_num
    all_goals norm_num [Aggregator.clamp01q, min_def, max_def]

/-- C6 (amended): at inference time with fitted vectoriser and scaler,
`extract_all_features` applies `np.log1p` to the quantitative, structural
and linguistic values BEFORE concatenation with the raw binary flags, passes
the concatenation through the fitted `MinMaxScaler` transform with no
clipping afterwards, and appends the result to the TF-IDF vector. -/
theorem extract_all_features_pipeline (log1p : ℚ → ℚ)
    (hostOf : String → Option String × Bool) (tldSuffix : String → String)
    (vectorize : String → List ℚ) (st : FEState) (pe : FEParsedEmail)
    (text : String) (ua : FEUrlAnalysis)
    (hf : st.is_fitted = true) (hs : st.is_scaler_fitted = true) :
    (extract_all_features log1p hostOf tldSuffix vectorize st pe text ua).map
        (fun r => r.feature_vector) =
      .ok (vectorize text ++
        minmaxTransform st.scaler_scale st.scaler_min
          ((extract_quantitative_features log1p hostOf pe).2.map log1p ++
           (extract_structural_features log1p pe).2.map log1p ++
           extract_binary_indicators hostOf tldSuffix ua pe ++
           (extract_linguistic_features log1p text).2.map log1p)) := by
  have hq : (extract_quantitative_features log1p hostOf pe).1 =
      (extract_quantitative_features log1p hostOf pe).2.map log1p := rfl
  have hst : (extract_structural_features log1p pe).1 =
      (extract_structural_features log1p pe).2.map log1p := rfl
  have hl : (extract_linguistic_features log1p text).1 =
      (extract_linguistic_features log1p text).2.map log1p := by
    unfold extract_linguistic_features
    split
    · rfl
    · rfl
  unfold extract_all_features
  rw [hf, hs]
  simp only [if_true, Except.map, hq, hst, hl]

/-- Witness for the amended C6 theorem at the counterexample's inputs. -/
theorem extract_all_features_pipeline_witness :
    (extract_all_features (fun q => q) (fun _ => (none, false)) (fun _ => "")
      (fun _ => []) clipScalerState {} "" { has_url_shortener := true }).map
        (fun r => r.feature_vector) =
      .ok ((fun _ : String => ([] : List ℚ)) "" ++
        minmaxTransform clipScalerState.scaler_scale clipScalerState.scaler_min
          ((extract_quantitative_features (fun q => q) (fun _ => (none, false)) {}).2.map (fun q => q) ++
           (extract_structural_features (fun q => q) {}).2.map (fun q => q) ++
           extract_binary_indicators (fun _ => (none, false)) (fun _ => "")
             { has_url_shortener := true } {} ++
           (extract_linguistic_features (fun q => q) "").2.map (fun q => q))) :=
  extract_all_features_pipeline (fun q => q) (fun _ => (none, false)) (fun _ => "")
    (fun _ => []) clipScalerState {} "" { has_url_shortener := true } rfl rfl

end FeatureExtractor

namespace EmailParser

theorem mem_insertStr {a x : String} {l : List String} (h : a ∈ insertStr x l) :
    a = x ∨ a ∈ l := by
  induction l with
  | nil => simpa [insertStr] using h
  | cons y ys ih =>
    unfold insertStr at h
    split at h
    · simpa using h
    · rcases List.mem_cons.mp h with h | h
      · exact Or.inr (List.mem_cons.mpr (Or.inl h))
      · rcases ih h with h | h
        · exact Or.inl h
        · exact Or.inr (List.mem_cons.mpr (Or.inr h))

theorem mem_pySortedStr {a : String} {l : List String} (h : a ∈ pySortedStr l) :
    a ∈ l := by
  induction l with
  | nil => simp [pySortedStr] at h
  | cons x xs ih =>
    unfold pySortedStr at h
    rcases mem_insertStr h with h | h
    · exact List.mem_cons.mpr (Or.inl h)
    · exact List.mem_cons.mpr (Or.inr (ih h))

/-- C5 counterexample: the `domains` list of `extract_domains` can contain an
IPv4 literal (captured by the `from <host>` regex on a Received header) and
an entry beginning with `www.` (the domain part of a header address is taken
verbatim), so the claimed invariant on `domains` fails on the code. -/
theorem extract_domains_domains_counterexample :
    "1.2.3.4" ∈ (extract_domains (fun _ => ("", "")) [] sampleHeaders).domains ∧
    validOctets "1.2.3.4" = true ∧
    "www.evil.com" ∈ (extract_domains (fun _ => ("", "")) [] sampleHeaders).domains ∧
    strStartsWith "www.evil.com" "www." = true := by
  decide

/-- C5 (amended): for every parser input, every entry of the extracted `ips`
list is an IPv4 dotted-quad whose four octets each lie in 0..255 (the final
per-octet validation filter guarantees this); the corresponding guarantee
for `domains` does not hold. -/
theorem extract_domains_ips_valid (tldx : String → String × String)
    (urls : List String) (headers : HeadersDict) :
    ∀ ip ∈ (extract_domains tldx urls headers).ips, validOctets ip = true := by
  intro ip hip
  simp only [extract_domains] at hip
  have h1 := mem_pySortedStr hip
  have h2 := List.mem_dedup.mp h1
  exact List.of_mem_filter h2

/-- Witness for the amended C5 theorem at the sample input. -/
theorem extract_domains_ips_valid_witness : validOctets "1.2.3.4" = true :=
  extract_domains_ips_valid (fun _ => ("", "")) [] sampleHeaders "1.2.3.4" (by decide)

end EmailParser
